import Mathlib

/-!
Verification development for the UG-HR-Solutions business-management
application (HR/payroll, invoicing, accounting over a synced document store).

The definitions below are a shallow embedding of the TypeScript source:
* `src/components/SalaryCalculator.tsx` — the payroll/accrual calculator
  (`reportData` rows: years of service, gratuity, leave, deductions,
  overtime, net salary);
* `src/App.tsx` (its embedded `DataContext` part) — the aggregate
  application state, `dataReducer`, the Firestore synchronization layer
  (`wrappedDispatch`, the snapshot handler) and `convertUndefinedToNull`.

JavaScript numbers are modelled as rationals (`ℚ`); all arithmetic in the
modelled code stays well within the range where IEEE doubles behave like
exact arithmetic for the values of interest, and the spec itself states the
formulas over exact arithmetic.  Dates `"YYYY-MM-DD"` are parsed by
`new Date` to UTC midnight; we model such a date by its civil triple and
convert to a day number since the Unix epoch, so that
`getTime() = 86400000 * epochDay`.
-/

namespace UGHR

/-- `'Office' | 'Labour'` (src/components/SetupModule.tsx line 219). -/
inductive EmployeeType where
  | Office
  | Labour
deriving DecidableEq, Repr

/-- `AttendanceStatus` enum; values observed in
`src/components/AttendanceRegister.tsx` (Present is the implicit default,
Absent/HalfDay/PaidLeave/SickLeave/Holiday are stored statuses). -/
inductive AttendanceStatus where
  | Present
  | Absent
  | HalfDay
  | PaidLeave
  | SickLeave
  | Holiday
deriving DecidableEq, Repr

/-- A civil (proleptic Gregorian) calendar date, as denoted by a
`"YYYY-MM-DD"` string in the source.  `month` is 1-based. -/
structure CivilDate where
  year : ℕ
  month : ℕ
  day : ℕ
deriving DecidableEq, Repr

/-- Day number since 1970-01-01 of a civil date (standard days-from-civil
computation; all intermediate values are nonnegative for years ≥ 1, so
natural-number division is the usual floor division).  This embeds
`new Date("YYYY-MM-DD").getTime() / 86400000` for UTC midnight dates. -/
def daysFromCivil (y m d : ℕ) : ℤ :=
  let y' := if m ≤ 2 then y - 1 else y
  let era := y' / 400
  let yoe := y' - era * 400
  let mp := if m ≤ 2 then m + 9 else m - 3
  let doy := (153 * mp + 2) / 5 + d - 1
  let doe := yoe * 365 + yoe / 4 - yoe / 100 + doy
  (era * 146097 + doe : ℤ) - 719468

/-- Leap-year test of the Gregorian calendar. -/
def isLeapYear (y : ℕ) : Bool :=
  (y % 4 == 0 && y % 100 != 0) || y % 400 == 0

/-- Number of days in month `m1` (1-based) of year `y`; this is the value
`new Date(year, month + 1, 0).getDate()` computes in the source. -/
def daysInGregMonth (y m1 : ℕ) : ℕ :=
  if m1 = 2 then (if isLeapYear y then 29 else 28)
  else if m1 = 4 ∨ m1 = 6 ∨ m1 = 9 ∨ m1 = 11 then 30
  else 31

/-- Epoch day of `new Date(year, month + 1, 0)` — the last day of the
selected month.  `month` is the 0-based JS month index. -/
def monthEndDay (year month : ℕ) : ℤ :=
  daysFromCivil year (month + 1) (daysInGregMonth year (month + 1))

/-- Epoch day of an employee's parsed `joiningDate`. -/
def CivilDate.epochDay (c : CivilDate) : ℤ :=
  daysFromCivil c.year c.month c.day

/-- SalaryCalculator.tsx line 49:
`Math.max(0, (endDate.getTime() - joinDate.getTime()) / (1000*60*60*24*365.25))`,
with `getTime() = 86400000 * epochDay` for midnight dates. -/
def yearsOfService (joinDay endDay : ℤ) : ℚ :=
  max 0 (((endDay - joinDay : ℤ) : ℚ) * 86400000 / (1000 * 60 * 60 * 24 * 365.25))

/-- SalaryCalculator.tsx lines 51-60: the gratuity rule applied to the
computed years of service.  Labour accrues `600/year` flat; otherwise with
`dailyWage = basicSalary / 30`, service of at least 1 year accrues
`dailyWage * 21 * yos` when `yos ≤ 5` and `dailyWage * 30 * yos` when
`yos > 5`, and nothing before 1 year. -/
def gratuityRule (employeeType : EmployeeType) (basicSalary yos : ℚ) : ℚ :=
  if employeeType = .Labour then
    yos * 600
  else
    let dailyWage := basicSalary / 30
    if 1 ≤ yos then
      (if yos ≤ 5 then dailyWage * 21 * yos else dailyWage * 30 * yos)
    else 0

/-- Employee record, restricted to the fields the payroll calculator and the
reducer read.  `joiningDate` holds the parsed civil date of the stored
`"YYYY-MM-DD"` string; `advances` is optional in the source (`advances || 0`). -/
structure Employee where
  id : String
  status : String
  employeeType : EmployeeType
  basicSalary : ℚ
  allowance : ℚ
  otherExps : ℚ
  advances : Option ℚ
  joiningDate : CivilDate
deriving DecidableEq, Repr

/-- `(employeeId, date) → status` attendance record; `date` is the stored
`"YYYY-MM-DD"` string. -/
structure AttendanceRecord where
  id : String
  employeeId : String
  date : String
  status : AttendanceStatus
deriving DecidableEq, Repr

/-- Hourly overtime record. -/
structure OvertimeRecord where
  id : String
  employeeId : String
  date : String
  hours : ℚ
deriving DecidableEq, Repr

/-- Press overtime record: hourly, or carrying a pre-computed pooled
`amount` (optional field). -/
structure OvertimePressRecord where
  id : String
  employeeId : String
  date : String
  hours : ℚ
  amount : Option ℚ
deriving DecidableEq, Repr

/-- `${year}-${String(month + 1).padStart(2, '0')}` (month 0-based). -/
def monthKey (year month : ℕ) : String :=
  toString year ++ "-" ++ (if month + 1 < 10 then "0" else "") ++ toString (month + 1)

/-- JavaScript `s.startsWith(pre)`, stated on the character lists of the two
strings. -/
def jsStartsWith (s pre : String) : Bool :=
  pre.data.isPrefixOf s.data

/-- The computed part of one payroll row (SalaryCalculator.tsx lines 96-106;
the row also spreads the employee's own fields, which we keep separate). -/
structure PayrollRow where
  payableDays : ℚ
  deductions : ℚ
  otAmount : ℚ
  otHours : ℚ
  advances : ℚ
  netPayableSalary : ℚ
  gratuityAmount : ℚ
  leaveSalaryAccrued : ℚ
deriving DecidableEq, Repr

/-- One payroll row of `reportData` (SalaryCalculator.tsx lines 45-107) for a
given employee, 0-based `month` of `year`, and the attendance / overtime /
press-overtime record collections the component reads from state. -/
def reportRow (year month : ℕ) (attendanceRecords : List AttendanceRecord)
    (overtimeRecords : List OvertimeRecord)
    (overtimePressRecords : List OvertimePressRecord) (employee : Employee) :
    PayrollRow :=
  let daysInMonth := daysInGregMonth year (month + 1)
  let monthStr := monthKey year month
  let joinDay := employee.joiningDate.epochDay
  let endDay := monthEndDay year month
  let yos := yearsOfService joinDay endDay
  let gratuityAccrued := gratuityRule employee.employeeType employee.basicSalary yos
  -- REVISED LAW: Vacations (Paid) 600 AED Per Year
  let leaveSalaryAccrued := yos * 600
  let attendanceForMonth := attendanceRecords.filter
    (fun r => r.employeeId == employee.id && jsStartsWith r.date monthStr)
  let absentDays := (attendanceForMonth.filter (fun r => r.status == .Absent)).length
  let halfDays := (attendanceForMonth.filter (fun r => r.status == .HalfDay)).length
  let unpaidDays := (absentDays : ℚ) + (halfDays : ℚ) * 0.5
  let dailyRate := employee.basicSalary / 30
  let deductions := unpaidDays * dailyRate
  let otRecords := overtimeRecords.filter
    (fun r => r.employeeId == employee.id && jsStartsWith r.date monthStr)
  let totalOtHours := otRecords.foldl (fun sum r => sum + r.hours) 0
  let hourlyOtAmount := totalOtHours * 7
  let otPressRecords := overtimePressRecords.filter
    (fun r => r.employeeId == employee.id && jsStartsWith r.date monthStr)
  let pressOtAmount := otPressRecords.foldl
    (fun sum r =>
      -- `if (r.amount !== undefined && r.amount > 0) return sum + r.amount;`
      match r.amount with
      | some a => if a > 0 then sum + a else sum + r.hours * 7
      | none => sum + r.hours * 7) 0
  let netSalary := (employee.basicSalary + employee.allowance + employee.otherExps
      + hourlyOtAmount + pressOtAmount) - deductions - employee.advances.getD 0
  { payableDays := (daysInMonth : ℚ) - unpaidDays
    deductions := deductions
    otAmount := hourlyOtAmount + pressOtAmount
    otHours := totalOtHours + otPressRecords.foldl (fun s r => s + r.hours) 0
    advances := employee.advances.getD 0
    netPayableSalary := netSalary
    gratuityAmount := gratuityAccrued
    leaveSalaryAccrued := leaveSalaryAccrued }

/-- `reportData` (SalaryCalculator.tsx lines 36-108): one row per active
employee, optionally restricted to one employee id by the UI filter. -/
def reportData (year month : ℕ) (filterEmployeeId : Option String)
    (employees : List Employee) (attendanceRecords : List AttendanceRecord)
    (overtimeRecords : List OvertimeRecord)
    (overtimePressRecords : List OvertimePressRecord) : List PayrollRow :=
  let base := employees.filter (fun (emp : Employee) => emp.status == "Active")
  let employeesToProcess :=
    match filterEmployeeId with
    | some fid => base.filter (fun (emp : Employee) => emp.id == fid)
    | none => base
  employeesToProcess.map (reportRow year month attendanceRecords overtimeRecords overtimePressRecords)

/-! ## The aggregate application state (`DataContext` part of src/App.tsx) -/

/-- A generic entity record.  The reducer treats entity payloads opaquely,
reading only `id` (and, for journal entries, the voucher fields); master-data
records are modelled by their identity fields. -/
structure Rec where
  id : String
  name : String := ""
deriving DecidableEq, Repr

/-- `JournalEntryType` enum: Receipt / Payment / Expense / Journal vouchers. -/
inductive JournalEntryType where
  | Receipt
  | Payment
  | Expense
  | Journal
deriving DecidableEq, Repr

/-- Journal entry, restricted to the fields the reducer reads (`voucherId`
prefix and `entryType` drive the voucher-series counters). -/
structure JournalEntry where
  id : String
  voucherId : String
  entryType : JournalEntryType
deriving DecidableEq, Repr

/-- Inventory item; `processState` recomputes `nextBaleNumber` from
`openingStock` (optional in the source: `item.openingStock || 0`) and the
production records. -/
structure Item where
  id : String
  openingStock : Option ℚ
  nextBaleNumber : ℚ
deriving DecidableEq, Repr

/-- Production record (`itemId`, `quantityProduced` are what
`processState` reads). -/
structure Production where
  id : String
  itemId : String
  quantityProduced : ℚ
deriving DecidableEq, Repr

/-- Favorite combination entry `{ date }`. -/
structure Fav where
  date : String
deriving DecidableEq, Repr

/-- The opaque planner dictionary (`plannerData: {}` by default). -/
abbrev PlannerData := List (String × String)

/-- The whole aggregate `AppState` as constructed by `getInitialState` /
`RESTORE_STATE` in the `DataContext` part of src/App.tsx: every entity
collection, the document-numbering counters, and the planner fields. -/
structure AppState where
  customers : List Rec
  suppliers : List Rec
  vendors : List Rec
  subSuppliers : List Rec
  employees : List Employee
  banks : List Rec
  cashAccounts : List Rec
  originalTypes : List Rec
  originalProducts : List Rec
  divisions : List Rec
  subDivisions : List Rec
  warehouses : List Rec
  sections : List Rec
  categories : List Rec
  items : List Item
  logos : List Rec
  assetTypes : List Rec
  commissionAgents : List Rec
  freightForwarders : List Rec
  clearingAgents : List Rec
  loanAccounts : List Rec
  capitalAccounts : List Rec
  investmentAccounts : List Rec
  expenseAccounts : List Rec
  inventoryAccounts : List Rec
  packingMaterialInventoryAccounts : List Rec
  fixedAssetAccounts : List Rec
  accumulatedDepreciationAccounts : List Rec
  receivableAccounts : List Rec
  revenueAccounts : List Rec
  payableAccounts : List Rec
  attendanceRecords : List AttendanceRecord
  salaryPayments : List Rec
  hrTasks : List Rec
  hrEnquiries : List Rec
  vehicles : List Rec
  fixedAssets : List Rec
  depreciationEntries : List Rec
  originalOpenings : List Rec
  originalPurchases : List Rec
  productions : List Production
  salesInvoices : List Rec
  ongoingOrders : List Rec
  finishedGoodsPurchases : List Rec
  packingMaterialItems : List Rec
  packingMaterialPurchases : List Rec
  logisticsEntries : List Rec
  guaranteeCheques : List Rec
  customsDocuments : List Rec
  favoriteCombinations : List Fav
  journalEntries : List JournalEntry
  testEntries : List Rec
  nextInvoiceNumber : ℕ
  nextOngoingOrderNumber : ℕ
  nextFinishedGoodsPurchaseNumber : ℕ
  nextPackingMaterialPurchaseNumber : ℕ
  nextLogisticsSNo : ℕ
  nextHRTaskId : ℕ
  nextHREnquiryId : ℕ
  nextGuaranteeChequeSNo : ℕ
  nextReceiptVoucherNumber : ℕ
  nextPaymentVoucherNumber : ℕ
  nextExpenseVoucherNumber : ℕ
  nextJournalVoucherNumber : ℕ
  nextTestEntryNumber : ℕ
  plannerData : PlannerData
  plannerLastWeeklyReset : String
  plannerLastMonthlyReset : String
  plannerCustomerIds : List String
  plannerSupplierIds : List String
  plannerExpenseAccountIds : List String
deriving DecidableEq, Repr

/-- `getInitialState` (src/App.tsx lines 639-737): empty collections except
the preset accounting accounts, all counters at 1, empty planner data. -/
def getInitialState : AppState where
  customers := []
  suppliers := []
  vendors := []
  subSuppliers := []
  employees := []
  banks := []
  cashAccounts := []
  originalTypes := []
  originalProducts := []
  divisions := []
  subDivisions := []
  warehouses := []
  sections := []
  categories := []
  items := []
  logos := []
  assetTypes := []
  commissionAgents := []
  freightForwarders := []
  clearingAgents := []
  loanAccounts := []
  capitalAccounts := []
  investmentAccounts := []
  expenseAccounts := [{ id := "EXP-012", name := "Depreciation Expense" }]
  inventoryAccounts := [{ id := "INV-FG-001", name := "Finished Goods Inventory" }]
  packingMaterialInventoryAccounts := [{ id := "INV-PM-001", name := "Packing Material Inventory" }]
  fixedAssetAccounts := [{ id := "FA-001", name := "Fixed Assets at Cost" }]
  accumulatedDepreciationAccounts := [{ id := "AD-001", name := "Accumulated Depreciation" }]
  receivableAccounts := [{ id := "AR-001", name := "Accounts Receivable" }]
  revenueAccounts := [{ id := "REV-001", name := "Sales Revenue" }]
  payableAccounts := [{ id := "AP-001", name := "Accounts Payable" },
    { id := "AP-002", name := "Customs Charges Payable" }]
  attendanceRecords := []
  salaryPayments := []
  hrTasks := []
  hrEnquiries := []
  vehicles := []
  fixedAssets := []
  depreciationEntries := []
  originalOpenings := []
  originalPurchases := []
  productions := []
  salesInvoices := []
  ongoingOrders := []
  finishedGoodsPurchases := []
  packingMaterialItems := []
  packingMaterialPurchases := []
  logisticsEntries := []
  guaranteeCheques := []
  customsDocuments := []
  favoriteCombinations := []
  journalEntries := []
  testEntries := []
  nextInvoiceNumber := 1
  nextOngoingOrderNumber := 1
  nextFinishedGoodsPurchaseNumber := 1
  nextPackingMaterialPurchaseNumber := 1
  nextLogisticsSNo := 1
  nextHRTaskId := 1
  nextHREnquiryId := 1
  nextGuaranteeChequeSNo := 1
  nextReceiptVoucherNumber := 1
  nextPaymentVoucherNumber := 1
  nextExpenseVoucherNumber := 1
  nextJournalVoucherNumber := 1
  nextTestEntryNumber := 1
  plannerData := []
  plannerLastWeeklyReset := ""
  plannerLastMonthlyReset := ""
  plannerCustomerIds := []
  plannerSupplierIds := []
  plannerExpenseAccountIds := []

/-- Total quantity produced for one item: the value
`productionsByItem[item.id] || 0` of the dictionary `processState` builds by
folding over `state.productions`. -/
def totalProducedFor (productions : List Production) (itemId : String) : ℚ :=
  productions.foldl (fun acc p => if p.itemId == itemId then acc + p.quantityProduced else acc) 0

/-- `processState` (src/App.tsx lines 621-636): recompute each item's
`nextBaleNumber` as `(openingStock || 0) + totalProduced + 1`. -/
def processState (state : AppState) : AppState :=
  let items := state.items.map (fun item =>
    { item with nextBaleNumber :=
        item.openingStock.getD 0 + totalProducedFor state.productions item.id + 1 })
  { state with items := items }

/-- `const initialState = processState(getInitialState());` -/
def initialState : AppState := processState getInitialState

/-! ## Typed actions and the reducer -/

/-- `EntityName`: every collection key of `AppState` except the counters,
`favoriteCombinations` and the planner fields (src/App.tsx line 741). -/
inductive EntityName where
  | customers
  | suppliers
  | vendors
  | subSuppliers
  | employees
  | banks
  | cashAccounts
  | originalTypes
  | originalProducts
  | divisions
  | subDivisions
  | warehouses
  | sections
  | categories
  | items
  | logos
  | assetTypes
  | commissionAgents
  | freightForwarders
  | clearingAgents
  | loanAccounts
  | capitalAccounts
  | investmentAccounts
  | expenseAccounts
  | inventoryAccounts
  | packingMaterialInventoryAccounts
  | fixedAssetAccounts
  | accumulatedDepreciationAccounts
  | receivableAccounts
  | revenueAccounts
  | payableAccounts
  | attendanceRecords
  | salaryPayments
  | hrTasks
  | hrEnquiries
  | vehicles
  | fixedAssets
  | depreciationEntries
  | originalOpenings
  | originalPurchases
  | productions
  | salesInvoices
  | ongoingOrders
  | finishedGoodsPurchases
  | packingMaterialItems
  | packingMaterialPurchases
  | logisticsEntries
  | guaranteeCheques
  | customsDocuments
  | journalEntries
  | testEntries
deriving DecidableEq, Repr

/-- The element type stored in each named collection. -/
def EntityData : EntityName → Type
  | .employees => Employee
  | .attendanceRecords => AttendanceRecord
  | .items => Item
  | .productions => Production
  | .journalEntries => JournalEntry
  | _ => Rec

/-- `state[entity]` — read the named collection. -/
def getColl (s : AppState) : (e : EntityName) → List (EntityData e)
  | .customers => s.customers
  | .suppliers => s.suppliers
  | .vendors => s.vendors
  | .subSuppliers => s.subSuppliers
  | .employees => s.employees
  | .banks => s.banks
  | .cashAccounts => s.cashAccounts
  | .originalTypes => s.originalTypes
  | .originalProducts => s.originalProducts
  | .divisions => s.divisions
  | .subDivisions => s.subDivisions
  | .warehouses => s.warehouses
  | .sections => s.sections
  | .categories => s.categories
  | .items => s.items
  | .logos => s.logos
  | .assetTypes => s.assetTypes
  | .commissionAgents => s.commissionAgents
  | .freightForwarders => s.freightForwarders
  | .clearingAgents => s.clearingAgents
  | .loanAccounts => s.loanAccounts
  | .capitalAccounts => s.capitalAccounts
  | .investmentAccounts => s.investmentAccounts
  | .expenseAccounts => s.expenseAccounts
  | .inventoryAccounts => s.inventoryAccounts
  | .packingMaterialInventoryAccounts => s.packingMaterialInventoryAccounts
  | .fixedAssetAccounts => s.fixedAssetAccounts
  | .accumulatedDepreciationAccounts => s.accumulatedDepreciationAccounts
  | .receivableAccounts => s.receivableAccounts
  | .revenueAccounts => s.revenueAccounts
  | .payableAccounts => s.payableAccounts
  | .attendanceRecords => s.attendanceRecords
  | .salaryPayments => s.salaryPayments
  | .hrTasks => s.hrTasks
  | .hrEnquiries => s.hrEnquiries
  | .vehicles => s.vehicles
  | .fixedAssets => s.fixedAssets
  | .depreciationEntries => s.depreciationEntries
  | .originalOpenings => s.originalOpenings
  | .originalPurchases => s.originalPurchases
  | .productions => s.productions
  | .salesInvoices => s.salesInvoices
  | .ongoingOrders => s.ongoingOrders
  | .finishedGoodsPurchases => s.finishedGoodsPurchases
  | .packingMaterialItems => s.packingMaterialItems
  | .packingMaterialPurchases => s.packingMaterialPurchases
  | .logisticsEntries => s.logisticsEntries
  | .guaranteeCheques => s.guaranteeCheques
  | .customsDocuments => s.customsDocuments
  | .journalEntries => s.journalEntries
  | .testEntries => s.testEntries

/-- `{ ...state, [entity]: l }` — replace the named collection. -/
def setColl (s : AppState) : (e : EntityName) → List (EntityData e) → AppState
  | .customers, l => { s with customers := l }
  | .suppliers, l => { s with suppliers := l }
  | .vendors, l => { s with vendors := l }
  | .subSuppliers, l => { s with subSuppliers := l }
  | .employees, l => { s with employees := l }
  | .banks, l => { s with banks := l }
  | .cashAccounts, l => { s with cashAccounts := l }
  | .originalTypes, l => { s with originalTypes := l }
  | .originalProducts, l => { s with originalProducts := l }
  | .divisions, l => { s with divisions := l }
  | .subDivisions, l => { s with subDivisions := l }
  | .warehouses, l => { s with warehouses := l }
  | .sections, l => { s with sections := l }
  | .categories, l => { s with categories := l }
  | .items, l => { s with items := l }
  | .logos, l => { s with logos := l }
  | .assetTypes, l => { s with assetTypes := l }
  | .commissionAgents, l => { s with commissionAgents := l }
  | .freightForwarders, l => { s with freightForwarders := l }
  | .clearingAgents, l => { s with clearingAgents := l }
  | .loanAccounts, l => { s with loanAccounts := l }
  | .capitalAccounts, l => { s with capitalAccounts := l }
  | .investmentAccounts, l => { s with investmentAccounts := l }
  | .expenseAccounts, l => { s with expenseAccounts := l }
  | .inventoryAccounts, l => { s with inventoryAccounts := l }
  | .packingMaterialInventoryAccounts, l => { s with packingMaterialInventoryAccounts := l }
  | .fixedAssetAccounts, l => { s with fixedAssetAccounts := l }
  | .accumulatedDepreciationAccounts, l => { s with accumulatedDepreciationAccounts := l }
  | .receivableAccounts, l => { s with receivableAccounts := l }
  | .revenueAccounts, l => { s with revenueAccounts := l }
  | .payableAccounts, l => { s with payableAccounts := l }
  | .attendanceRecords, l => { s with attendanceRecords := l }
  | .salaryPayments, l => { s with salaryPayments := l }
  | .hrTasks, l => { s with hrTasks := l }
  | .hrEnquiries, l => { s with hrEnquiries := l }
  | .vehicles, l => { s with vehicles := l }
  | .fixedAssets, l => { s with fixedAssets := l }
  | .depreciationEntries, l => { s with depreciationEntries := l }
  | .originalOpenings, l => { s with originalOpenings := l }
  | .originalPurchases, l => { s with originalPurchases := l }
  | .productions, l => { s with productions := l }
  | .salesInvoices, l => { s with salesInvoices := l }
  | .ongoingOrders, l => { s with ongoingOrders := l }
  | .finishedGoodsPurchases, l => { s with finishedGoodsPurchases := l }
  | .packingMaterialItems, l => { s with packingMaterialItems := l }
  | .packingMaterialPurchases, l => { s with packingMaterialPurchases := l }
  | .logisticsEntries, l => { s with logisticsEntries := l }
  | .guaranteeCheques, l => { s with guaranteeCheques := l }
  | .customsDocuments, l => { s with customsDocuments := l }
  | .journalEntries, l => { s with journalEntries := l }
  | .testEntries, l => { s with testEntries := l }

/-- `item.id` of an entity payload, uniformly over the collection it
belongs to (`UPDATE_ENTITY` / `DELETE_ENTITY` match on it). -/
def entityId : (e : EntityName) → EntityData e → String
  | .customers, d => d.id
  | .suppliers, d => d.id
  | .vendors, d => d.id
  | .subSuppliers, d => d.id
  | .employees, d => d.id
  | .banks, d => d.id
  | .cashAccounts, d => d.id
  | .originalTypes, d => d.id
  | .originalProducts, d => d.id
  | .divisions, d => d.id
  | .subDivisions, d => d.id
  | .warehouses, d => d.id
  | .sections, d => d.id
  | .categories, d => d.id
  | .items, d => d.id
  | .logos, d => d.id
  | .assetTypes, d => d.id
  | .commissionAgents, d => d.id
  | .freightForwarders, d => d.id
  | .clearingAgents, d => d.id
  | .loanAccounts, d => d.id
  | .capitalAccounts, d => d.id
  | .investmentAccounts, d => d.id
  | .expenseAccounts, d => d.id
  | .inventoryAccounts, d => d.id
  | .packingMaterialInventoryAccounts, d => d.id
  | .fixedAssetAccounts, d => d.id
  | .accumulatedDepreciationAccounts, d => d.id
  | .receivableAccounts, d => d.id
  | .revenueAccounts, d => d.id
  | .payableAccounts, d => d.id
  | .attendanceRecords, d => d.id
  | .salaryPayments, d => d.id
  | .hrTasks, d => d.id
  | .hrEnquiries, d => d.id
  | .vehicles, d => d.id
  | .fixedAssets, d => d.id
  | .depreciationEntries, d => d.id
  | .originalOpenings, d => d.id
  | .originalPurchases, d => d.id
  | .productions, d => d.id
  | .salesInvoices, d => d.id
  | .ongoingOrders, d => d.id
  | .finishedGoodsPurchases, d => d.id
  | .packingMaterialItems, d => d.id
  | .packingMaterialPurchases, d => d.id
  | .logisticsEntries, d => d.id
  | .guaranteeCheques, d => d.id
  | .customsDocuments, d => d.id
  | .journalEntries, d => d.id
  | .testEntries, d => d.id

/-! ## Restore payloads

A `RESTORE_STATE` payload comes from the remote document store and is
dynamically typed: each top-level key can be absent, `null`, or carry a
value.  The reducer fills collections with `payload.key || default` and
counters with `payload.key ?? default`. -/

/-- A dynamically-typed top-level field of a snapshot payload. -/
inductive RawField (α : Type) where
  | missing
  | null
  | val (a : α)
deriving DecidableEq, Repr

/-- JS `field || default` when the field, if present, holds an array or an
object (arrays and objects are always truthy). -/
def RawField.orColl {α : Type} : RawField (List α) → List α → List α
  | .val a, _ => a
  | _, d => d

/-- JS `field || default` for a string field (the empty string is falsy). -/
def RawField.orStr : RawField String → String → String
  | .val a, d => if a = "" then d else a
  | _, d => d

/-- JS `field ?? default` for a numeric counter field. -/
def RawField.nn : RawField ℕ → ℕ → ℕ
  | .val a, _ => a
  | _, d => d

/-- The field is absent from the payload or holds `null`. -/
def RawField.isMissingOrNull {α : Type} : RawField α → Prop
  | .missing => True
  | .null => True
  | .val _ => False

/-- `'key' in payload` — the key is present (possibly with value `null`). -/
def RawField.keyPresent {α : Type} : RawField α → Prop
  | .missing => False
  | _ => True

instance {α : Type} (f : RawField α) : Decidable f.isMissingOrNull := by
  cases f <;> simp [RawField.isMissingOrNull] <;> infer_instance

instance {α : Type} (f : RawField α) : Decidable f.keyPresent := by
  cases f <;> simp [RawField.keyPresent] <;> infer_instance

/-- The raw shape of a snapshot object: every top-level key of the aggregate,
each possibly absent or null. -/
structure RawState where
  customers : RawField (List Rec) := .missing
  suppliers : RawField (List Rec) := .missing
  vendors : RawField (List Rec) := .missing
  subSuppliers : RawField (List Rec) := .missing
  employees : RawField (List Employee) := .missing
  banks : RawField (List Rec) := .missing
  cashAccounts : RawField (List Rec) := .missing
  originalTypes : RawField (List Rec) := .missing
  originalOpenings : RawField (List Rec) := .missing
  originalProducts : RawField (List Rec) := .missing
  divisions : RawField (List Rec) := .missing
  subDivisions : RawField (List Rec) := .missing
  warehouses : RawField (List Rec) := .missing
  sections : RawField (List Rec) := .missing
  categories : RawField (List Rec) := .missing
  items : RawField (List Item) := .missing
  logos : RawField (List Rec) := .missing
  assetTypes : RawField (List Rec) := .missing
  commissionAgents : RawField (List Rec) := .missing
  freightForwarders : RawField (List Rec) := .missing
  clearingAgents : RawField (List Rec) := .missing
  loanAccounts : RawField (List Rec) := .missing
  capitalAccounts : RawField (List Rec) := .missing
  investmentAccounts : RawField (List Rec) := .missing
  expenseAccounts : RawField (List Rec) := .missing
  inventoryAccounts : RawField (List Rec) := .missing
  packingMaterialInventoryAccounts : RawField (List Rec) := .missing
  fixedAssetAccounts : RawField (List Rec) := .missing
  accumulatedDepreciationAccounts : RawField (List Rec) := .missing
  receivableAccounts : RawField (List Rec) := .missing
  revenueAccounts : RawField (List Rec) := .missing
  payableAccounts : RawField (List Rec) := .missing
  attendanceRecords : RawField (List AttendanceRecord) := .missing
  salaryPayments : RawField (List Rec) := .missing
  hrTasks : RawField (List Rec) := .missing
  hrEnquiries : RawField (List Rec) := .missing
  vehicles : RawField (List Rec) := .missing
  fixedAssets : RawField (List Rec) := .missing
  depreciationEntries : RawField (List Rec) := .missing
  originalPurchases : RawField (List Rec) := .missing
  productions : RawField (List Production) := .missing
  salesInvoices : RawField (List Rec) := .missing
  ongoingOrders : RawField (List Rec) := .missing
  finishedGoodsPurchases : RawField (List Rec) := .missing
  packingMaterialItems : RawField (List Rec) := .missing
  packingMaterialPurchases : RawField (List Rec) := .missing
  logisticsEntries : RawField (List Rec) := .missing
  guaranteeCheques : RawField (List Rec) := .missing
  customsDocuments : RawField (List Rec) := .missing
  favoriteCombinations : RawField (List Fav) := .missing
  journalEntries : RawField (List JournalEntry) := .missing
  testEntries : RawField (List Rec) := .missing
  nextInvoiceNumber : RawField ℕ := .missing
  nextOngoingOrderNumber : RawField ℕ := .missing
  nextFinishedGoodsPurchaseNumber : RawField ℕ := .missing
  nextPackingMaterialPurchaseNumber : RawField ℕ := .missing
  nextLogisticsSNo : RawField ℕ := .missing
  nextHRTaskId : RawField ℕ := .missing
  nextHREnquiryId : RawField ℕ := .missing
  nextGuaranteeChequeSNo : RawField ℕ := .missing
  nextReceiptVoucherNumber : RawField ℕ := .missing
  nextPaymentVoucherNumber : RawField ℕ := .missing
  nextExpenseVoucherNumber : RawField ℕ := .missing
  nextJournalVoucherNumber : RawField ℕ := .missing
  nextTestEntryNumber : RawField ℕ := .missing
  plannerData : RawField PlannerData := .missing
  plannerLastWeeklyReset : RawField String := .missing
  plannerLastMonthlyReset : RawField String := .missing
  plannerCustomerIds : RawField (List String) := .missing
  plannerSupplierIds : RawField (List String) := .missing
  plannerExpenseAccountIds : RawField (List String) := .missing
deriving DecidableEq, Repr

/-- A `RESTORE_STATE` payload: either not an object at all (`null`,
a primitive, …) or a dynamically-shaped object. -/
inductive RestorePayload where
  | notAnObject
  | obj (r : RawState)
deriving DecidableEq, Repr

/-- The duck-typed guard of `RESTORE_STATE` (src/App.tsx line 867):
`firestoreState && typeof firestoreState === 'object' && 'customers' in firestoreState`. -/
def validSnapshotShape : RestorePayload → Prop
  | .notAnObject => False
  | .obj r => r.customers.keyPresent

instance (p : RestorePayload) : Decidable (validSnapshotShape p) := by
  cases p <;> simp [validSnapshotShape] <;> infer_instance

/-- The `newState` object built by `RESTORE_STATE` (src/App.tsx lines
868-944): every collection from `firestoreState.key || defaultState.key`,
every counter from `firestoreState.key ?? defaultState.key`. -/
def buildRestoredState (r : RawState) : AppState :=
  let defaultState := getInitialState
  { customers := r.customers.orColl defaultState.customers
    suppliers := r.suppliers.orColl defaultState.suppliers
    vendors := r.vendors.orColl defaultState.vendors
    subSuppliers := r.subSuppliers.orColl defaultState.subSuppliers
    commissionAgents := r.commissionAgents.orColl defaultState.commissionAgents
    items := r.items.orColl defaultState.items
    originalTypes := r.originalTypes.orColl defaultState.originalTypes
    originalProducts := r.originalProducts.orColl defaultState.originalProducts
    divisions := r.divisions.orColl defaultState.divisions
    subDivisions := r.subDivisions.orColl defaultState.subDivisions
    warehouses := r.warehouses.orColl defaultState.warehouses
    sections := r.sections.orColl defaultState.sections
    categories := r.categories.orColl defaultState.categories
    logos := r.logos.orColl defaultState.logos
    assetTypes := r.assetTypes.orColl defaultState.assetTypes
    freightForwarders := r.freightForwarders.orColl defaultState.freightForwarders
    clearingAgents := r.clearingAgents.orColl defaultState.clearingAgents
    banks := r.banks.orColl defaultState.banks
    cashAccounts := r.cashAccounts.orColl defaultState.cashAccounts
    loanAccounts := r.loanAccounts.orColl defaultState.loanAccounts
    capitalAccounts := r.capitalAccounts.orColl defaultState.capitalAccounts
    investmentAccounts := r.investmentAccounts.orColl defaultState.investmentAccounts
    expenseAccounts := r.expenseAccounts.orColl defaultState.expenseAccounts
    inventoryAccounts := r.inventoryAccounts.orColl defaultState.inventoryAccounts
    packingMaterialInventoryAccounts :=
      r.packingMaterialInventoryAccounts.orColl defaultState.packingMaterialInventoryAccounts
    fixedAssetAccounts := r.fixedAssetAccounts.orColl defaultState.fixedAssetAccounts
    accumulatedDepreciationAccounts :=
      r.accumulatedDepreciationAccounts.orColl defaultState.accumulatedDepreciationAccounts
    receivableAccounts := r.receivableAccounts.orColl defaultState.receivableAccounts
    revenueAccounts := r.revenueAccounts.orColl defaultState.revenueAccounts
    payableAccounts := r.payableAccounts.orColl defaultState.payableAccounts
    employees := r.employees.orColl defaultState.employees
    attendanceRecords := r.attendanceRecords.orColl defaultState.attendanceRecords
    salaryPayments := r.salaryPayments.orColl defaultState.salaryPayments
    hrTasks := r.hrTasks.orColl defaultState.hrTasks
    hrEnquiries := r.hrEnquiries.orColl defaultState.hrEnquiries
    vehicles := r.vehicles.orColl defaultState.vehicles
    fixedAssets := r.fixedAssets.orColl defaultState.fixedAssets
    depreciationEntries := r.depreciationEntries.orColl defaultState.depreciationEntries
    originalOpenings := r.originalOpenings.orColl defaultState.originalOpenings
    originalPurchases := r.originalPurchases.orColl defaultState.originalPurchases
    productions := r.productions.orColl defaultState.productions
    salesInvoices := r.salesInvoices.orColl defaultState.salesInvoices
    ongoingOrders := r.ongoingOrders.orColl defaultState.ongoingOrders
    finishedGoodsPurchases := r.finishedGoodsPurchases.orColl defaultState.finishedGoodsPurchases
    packingMaterialItems := r.packingMaterialItems.orColl defaultState.packingMaterialItems
    packingMaterialPurchases :=
      r.packingMaterialPurchases.orColl defaultState.packingMaterialPurchases
    logisticsEntries := r.logisticsEntries.orColl defaultState.logisticsEntries
    guaranteeCheques := r.guaranteeCheques.orColl defaultState.guaranteeCheques
    customsDocuments := r.customsDocuments.orColl defaultState.customsDocuments
    favoriteCombinations := r.favoriteCombinations.orColl defaultState.favoriteCombinations
    journalEntries := r.journalEntries.orColl defaultState.journalEntries
    testEntries := r.testEntries.orColl defaultState.testEntries
    nextInvoiceNumber := r.nextInvoiceNumber.nn defaultState.nextInvoiceNumber
    nextOngoingOrderNumber := r.nextOngoingOrderNumber.nn defaultState.nextOngoingOrderNumber
    nextFinishedGoodsPurchaseNumber :=
      r.nextFinishedGoodsPurchaseNumber.nn defaultState.nextFinishedGoodsPurchaseNumber
    nextPackingMaterialPurchaseNumber :=
      r.nextPackingMaterialPurchaseNumber.nn defaultState.nextPackingMaterialPurchaseNumber
    nextLogisticsSNo := r.nextLogisticsSNo.nn defaultState.nextLogisticsSNo
    nextHRTaskId := r.nextHRTaskId.nn defaultState.nextHRTaskId
    nextHREnquiryId := r.nextHREnquiryId.nn defaultState.nextHREnquiryId
    nextGuaranteeChequeSNo := r.nextGuaranteeChequeSNo.nn defaultState.nextGuaranteeChequeSNo
    nextReceiptVoucherNumber := r.nextReceiptVoucherNumber.nn defaultState.nextReceiptVoucherNumber
    nextPaymentVoucherNumber := r.nextPaymentVoucherNumber.nn defaultState.nextPaymentVoucherNumber
    nextExpenseVoucherNumber := r.nextExpenseVoucherNumber.nn defaultState.nextExpenseVoucherNumber
    nextJournalVoucherNumber := r.nextJournalVoucherNumber.nn defaultState.nextJournalVoucherNumber
    nextTestEntryNumber := r.nextTestEntryNumber.nn defaultState.nextTestEntryNumber
    plannerData := r.plannerData.orColl defaultState.plannerData
    plannerLastWeeklyReset := r.plannerLastWeeklyReset.orStr defaultState.plannerLastWeeklyReset
    plannerLastMonthlyReset := r.plannerLastMonthlyReset.orStr defaultState.plannerLastMonthlyReset
    plannerCustomerIds := r.plannerCustomerIds.orColl defaultState.plannerCustomerIds
    plannerSupplierIds := r.plannerSupplierIds.orColl defaultState.plannerSupplierIds
    plannerExpenseAccountIds :=
      r.plannerExpenseAccountIds.orColl defaultState.plannerExpenseAccountIds }

/-- Planner entity kind of `ADD_PLANNER_ENTITY` / `REMOVE_PLANNER_ENTITY`. -/
inductive PlannerEntityType where
  | customer
  | supplier
  | expenseAccount
deriving DecidableEq, Repr

/-- `SET_PLANNER_DATA` payload: a partial record over the three planner
state fields. -/
structure SetPlannerPayload where
  plannerData : Option PlannerData := none
  plannerLastWeeklyReset : Option String := none
  plannerLastMonthlyReset : Option String := none
deriving DecidableEq, Repr

/-- A `BATCH_UPDATE` sub-action (`AddAction | UpdateAction | DeleteAction`). -/
inductive BatchAction where
  | add (e : EntityName) (data : EntityData e)
  | update (e : EntityName) (data : EntityData e)
  | delete (e : EntityName) (id : String)

/-- The reducer's action type.  The TypeScript union is closed, but the
reducer ends in `default: return state`; `unknown` stands for any action
object whose type tag is none of the handled cases (reachable from untyped
JavaScript callers). -/
inductive Action where
  | addPlannerEntity (entityType : PlannerEntityType) (entityId : String)
  | removePlannerEntity (entityType : PlannerEntityType) (entityId : String)
  | hardResetTransactions
  | batchUpdate (payload : List BatchAction)
  | addEntity (e : EntityName) (data : EntityData e)
  | updateEntity (e : EntityName) (data : EntityData e)
  | deleteEntity (e : EntityName) (id : String)
  | toggleFavoriteCombination (date : String)
  | setPlannerData (payload : SetPlannerPayload)
  | restoreState (payload : RestorePayload)
  | unknown (tag : String)

/-- The `ADD_ENTITY` case (src/App.tsx lines 819-843): append the payload to
the target collection unconditionally, then bump the counter associated with
the entity type.  For journal entries the matching voucher-series counter is
bumped only for the first entry of a voucher, selected by entry type plus
voucher-id prefix. -/
def applyAdd (s : AppState) (e : EntityName) (data : EntityData e) : AppState :=
  let s1 := setColl s e (getColl s e ++ [data])
  match e, data with
  | .salesInvoices, _ => { s1 with nextInvoiceNumber := s.nextInvoiceNumber + 1 }
  | .ongoingOrders, _ => { s1 with nextOngoingOrderNumber := s.nextOngoingOrderNumber + 1 }
  | .finishedGoodsPurchases, _ =>
      { s1 with nextFinishedGoodsPurchaseNumber := s.nextFinishedGoodsPurchaseNumber + 1 }
  | .packingMaterialPurchases, _ =>
      { s1 with nextPackingMaterialPurchaseNumber := s.nextPackingMaterialPurchaseNumber + 1 }
  | .logisticsEntries, _ => { s1 with nextLogisticsSNo := s.nextLogisticsSNo + 1 }
  | .guaranteeCheques, _ => { s1 with nextGuaranteeChequeSNo := s.nextGuaranteeChequeSNo + 1 }
  | .hrTasks, _ => { s1 with nextHRTaskId := s.nextHRTaskId + 1 }
  | .hrEnquiries, _ => { s1 with nextHREnquiryId := s.nextHREnquiryId + 1 }
  | .testEntries, _ => { s1 with nextTestEntryNumber := s.nextTestEntryNumber + 1 }
  | .journalEntries, entry =>
      let isFirstEntryForVoucher :=
        !(s.journalEntries.any (fun je => je.voucherId == entry.voucherId))
      if isFirstEntryForVoucher then
        if entry.entryType == .Receipt && jsStartsWith entry.voucherId "RV-" then
          { s1 with nextReceiptVoucherNumber := s.nextReceiptVoucherNumber + 1 }
        else if entry.entryType == .Payment && jsStartsWith entry.voucherId "PV-" then
          { s1 with nextPaymentVoucherNumber := s.nextPaymentVoucherNumber + 1 }
        else if entry.entryType == .Expense && jsStartsWith entry.voucherId "EV-" then
          { s1 with nextExpenseVoucherNumber := s.nextExpenseVoucherNumber + 1 }
        else if entry.entryType == .Journal && jsStartsWith entry.voucherId "JV-" then
          { s1 with nextJournalVoucherNumber := s.nextJournalVoucherNumber + 1 }
        else s1
      else s1
  | _, _ => s1

/-- The `UPDATE_ENTITY` case: shallow-merge by id.  The embedding carries
complete records as payloads, for which `{...item, ...data}` coincides with
replacing the record. -/
def applyUpdate (s : AppState) (e : EntityName) (data : EntityData e) : AppState :=
  setColl s e ((getColl s e).map
    (fun item => if entityId e item == entityId e data then data else item))

/-- The `DELETE_ENTITY` case: filter the collection by `item.id !== id`. -/
def applyDelete (s : AppState) (e : EntityName) (id : String) : AppState :=
  setColl s e ((getColl s e).filter (fun item => entityId e item != id))

/-- `dataReducer` (src/App.tsx lines 761-952).  `BATCH_UPDATE` folds its
sub-actions through the reducer itself; since sub-actions are restricted to
add/update/delete, the fold applies the corresponding cases directly. -/
def dataReducer (state : AppState) : Action → AppState
  | .addPlannerEntity entityType entityId =>
      match entityType with
      | .customer =>
          if state.plannerCustomerIds.contains entityId then state
          else { state with plannerCustomerIds := state.plannerCustomerIds ++ [entityId] }
      | .supplier =>
          if state.plannerSupplierIds.contains entityId then state
          else { state with plannerSupplierIds := state.plannerSupplierIds ++ [entityId] }
      | .expenseAccount =>
          if state.plannerExpenseAccountIds.contains entityId then state
          else { state with plannerExpenseAccountIds := state.plannerExpenseAccountIds ++ [entityId] }
  | .removePlannerEntity entityType entityId =>
      match entityType with
      | .customer =>
          { state with plannerCustomerIds := state.plannerCustomerIds.filter (· ≠ entityId) }
      | .supplier =>
          { state with plannerSupplierIds := state.plannerSupplierIds.filter (· ≠ entityId) }
      | .expenseAccount =>
          { state with
            plannerExpenseAccountIds := state.plannerExpenseAccountIds.filter (· ≠ entityId) }
  | .hardResetTransactions =>
      { state with
        salesInvoices := []
        originalPurchases := []
        finishedGoodsPurchases := []
        packingMaterialPurchases := []
        journalEntries := []
        productions := []
        originalOpenings := []
        ongoingOrders := []
        logisticsEntries := []
        attendanceRecords := []
        salaryPayments := []
        hrTasks := []
        hrEnquiries := []
        favoriteCombinations := []
        testEntries := []
        depreciationEntries := []
        nextInvoiceNumber := 1
        nextOngoingOrderNumber := 1
        nextFinishedGoodsPurchaseNumber := 1
        nextPackingMaterialPurchaseNumber := 1
        nextLogisticsSNo := 1
        nextReceiptVoucherNumber := 1
        nextPaymentVoucherNumber := 1
        nextExpenseVoucherNumber := 1
        nextJournalVoucherNumber := 1
        nextTestEntryNumber := 1
        nextHRTaskId := 1
        nextHREnquiryId := 1
        plannerData := []
        plannerLastWeeklyReset := ""
        plannerLastMonthlyReset := "" }
  | .batchUpdate payload =>
      payload.foldl
        (fun currentState currentAction =>
          match currentAction with
          | .add e d => applyAdd currentState e d
          | .update e d => applyUpdate currentState e d
          | .delete e i => applyDelete currentState e i)
        state
  | .addEntity e data => applyAdd state e data
  | .updateEntity e data => applyUpdate state e data
  | .deleteEntity e id => applyDelete state e id
  | .toggleFavoriteCombination date =>
      let isFavorite := state.favoriteCombinations.any (fun fav => fav.date == date)
      if isFavorite then
        { state with
          favoriteCombinations := state.favoriteCombinations.filter (fun fav => fav.date != date) }
      else
        -- `newFavorites.sort((a, b) => b.date.localeCompare(a.date))`:
        -- stable sort, descending by date (string comparison).
        { state with
          favoriteCombinations :=
            (state.favoriteCombinations ++ [Fav.mk date]).insertionSort
              (fun a b => b.date ≤ a.date) }
  | .setPlannerData payload =>
      { state with
        plannerData := payload.plannerData.getD state.plannerData
        plannerLastWeeklyReset :=
          payload.plannerLastWeeklyReset.getD state.plannerLastWeeklyReset
        plannerLastMonthlyReset :=
          payload.plannerLastMonthlyReset.getD state.plannerLastMonthlyReset }
  | .restoreState payload =>
      match payload with
      | .notAnObject => state
      | .obj firestoreState =>
          if firestoreState.customers.keyPresent then
            processState (buildRestoredState firestoreState)
          else state
  | .unknown _ => state

/-! ## Synchronization layer (`DataProvider` in src/App.tsx)

Local dispatches go through `wrappedDispatch`, which sets the
`isLocalChange` flag before reducing.  The Firestore `onSnapshot` handler
first consumes that flag (ignoring one notification), and otherwise
de-duplicates `divisions` by id and dispatches `RESTORE_STATE` with the
snapshot data.  The handler's remote-write suppression flag and its remote
side effects (seeding a missing document) do not touch local state and are
outside this model. -/

/-- The client-side synchronization state: the echo-suppression flag
`isLocalChange` plus the reducer-held aggregate. -/
structure SyncState where
  isLocalChange : Bool
  localState : AppState

/-- `wrappedDispatch` (src/App.tsx lines 978-981): set the flag, then
dispatch to the reducer. -/
def wrappedDispatch (st : SyncState) (action : Action) : SyncState :=
  { isLocalChange := true, localState := dataReducer st.localState action }

/-- The duplicate-divisions cleanup inside the snapshot handler
(src/App.tsx lines 1073-1088): keep the first record for each id. -/
def dedupById (divisions : List Rec) : List Rec :=
  divisions.foldl
    (fun uniqueDivisions division =>
      if uniqueDivisions.any (fun d => d.id == division.id) then uniqueDivisions
      else uniqueDivisions ++ [division]) []

/-- Apply the divisions cleanup to a snapshot payload (skipped when the
`divisions` key is absent or not an array). -/
def dedupDivisions : RestorePayload → RestorePayload
  | .notAnObject => .notAnObject
  | .obj r =>
      .obj { r with divisions :=
        match r.divisions with
        | .val ds => .val (dedupById ds)
        | f => f }

/-- The `onSnapshot` handler (src/App.tsx lines 1063-1097), restricted to
its effect on local synchronization state.  `doc = none` models a snapshot
for a non-existing document (the handler then seeds the remote document and
leaves local state alone). -/
def handleSnapshot (st : SyncState) (doc : Option RestorePayload) : SyncState :=
  if st.isLocalChange then
    { st with isLocalChange := false }
  else
    match doc with
    | some firestoreData =>
        { st with
          localState :=
            dataReducer st.localState (.restoreState (dedupDivisions firestoreData)) }
    | none => st

/-! ## Serialization: `convertUndefinedToNull` (src/App.tsx lines 598-619)

A dynamic JavaScript value, as traversed by the serializer.  Objects are
own-key/value lists (the `for...in` + `hasOwnProperty` loop); arrays are
element lists. -/

mutual
inductive JsValue where
  | undef
  | null
  | num (q : ℚ)
  | str (s : String)
  | bool (b : Bool)
  | arr (elems : JsArr)
  | obj (fields : JsObj)

inductive JsArr where
  | nil
  | cons (head : JsValue) (tail : JsArr)

inductive JsObj where
  | nil
  | cons (key : String) (value : JsValue) (tail : JsObj)
end

mutual
/-- `convertUndefinedToNull`: primitives (including `undefined` itself,
whose `typeof` is not `'object'`) are returned unchanged; arrays map the
conversion over their elements; objects replace `undefined` field values by
`null` and recurse into the rest. -/
def convertUndefinedToNull : JsValue → JsValue
  | .undef => .undef
  | .null => .null
  | .num q => .num q
  | .str s => .str s
  | .bool b => .bool b
  | .arr elems => .arr (convertUndefinedToNullArr elems)
  | .obj fields => .obj (convertUndefinedToNullObj fields)

/-- `obj.map(item => convertUndefinedToNull(item))` over an array. -/
def convertUndefinedToNullArr : JsArr → JsArr
  | .nil => .nil
  | .cons head tail => .cons (convertUndefinedToNull head) (convertUndefinedToNullArr tail)

/-- The `for...in` loop: `value === undefined ? null : convertUndefinedToNull(value)`
for each own field. -/
def convertUndefinedToNullObj : JsObj → JsObj
  | .nil => .nil
  | .cons key value tail =>
      .cons key
        (match value with
         | .undef => .null
         | v => convertUndefinedToNull v)
        (convertUndefinedToNullObj tail)
end

mutual
/-- Claim-side specification (C7): replace every `undefined` **field**
value with `null`, recursively, leaving all other values unchanged. -/
def replaceUndefFieldsSpec : JsValue → JsValue
  | .arr elems => .arr (replaceUndefFieldsSpecArr elems)
  | .obj fields => .obj (replaceUndefFieldsSpecObj fields)
  | v => v

/-- Claim-side: recurse into array elements. -/
def replaceUndefFieldsSpecArr : JsArr → JsArr
  | .nil => .nil
  | .cons head tail => .cons (replaceUndefFieldsSpec head) (replaceUndefFieldsSpecArr tail)

/-- Claim-side: an `undefined` field becomes `null`; any other field value
is processed recursively. -/
def replaceUndefFieldsSpecObj : JsObj → JsObj
  | .nil => .nil
  | .cons key value tail =>
      .cons key
        (match value with
         | .undef => .null
         | v => replaceUndefFieldsSpec v)
        (replaceUndefFieldsSpecObj tail)
end

/-! # Theorems for the frozen claims -/

/-- Folding `+ f r` over a list starting from `c` is `c` plus the sum of the
images (the shape of the overtime `reduce` calls). -/
theorem foldl_add_emits_sum {α : Type} (g : α → ℚ) (body : ℚ → α → ℚ)
    (hb : ∀ c r, body c r = c + g r) :
    ∀ (l : List α) (c : ℚ), l.foldl body c = c + (l.map g).sum
  | [], c => by simp
  | r :: l, c => by
      rw [List.foldl_cons, foldl_add_emits_sum g body hb l (body c r), List.map_cons,
        List.sum_cons, hb]
      ring

/-- Claim-side per-record press overtime pay, as the claim words it:
"its stored pooled amount if one is present, otherwise its hours × the
fixed rate". -/
def pressOtPerRecordAsWritten (r : OvertimePressRecord) : ℚ :=
  match r.amount with
  | some a => a
  | none => r.hours * 7

/-- Claim-side per-record press overtime pay, amended: the stored pooled
amount counts only when it is present **and positive**; otherwise the record
is paid hourly. -/
def pressOtPerRecord (r : OvertimePressRecord) : ℚ :=
  match r.amount with
  | some a => if 0 < a then a else r.hours * 7
  | none => r.hours * 7

/-- The body of the press-overtime `reduce` adds `pressOtPerRecord` of the
record to the accumulator. -/
theorem pressBody_adds_perRecord (c : ℚ) (r : OvertimePressRecord) :
    (match r.amount with
      | some a => if a > 0 then c + a else c + r.hours * 7
      | none => c + r.hours * 7) = c + pressOtPerRecord r := by
  cases h : r.amount with
  | none => simp [pressOtPerRecord, h]
  | some a =>
      simp only [pressOtPerRecord, h]
      split_ifs <;> ring

/-- An active Office employee used in the C1 counterexample. -/
def c1emp : Employee :=
  { id := "EMP-C1", status := "Active", employeeType := .Office, basicSalary := 3000,
    allowance := 0, otherExps := 0, advances := none, joiningDate := ⟨2020, 1, 1⟩ }

/-- A press overtime record whose pooled `amount` is present but zero. -/
def c1press : OvertimePressRecord :=
  { id := "OTP-1", employeeId := "EMP-C1", date := "2024-12-05", hours := 1, amount := some 0 }

/-- **C1, counterexample.** For a press overtime record with a *present but
zero* stored pooled amount, the claim's formula pays the stored amount (0),
but the code (`r.amount !== undefined && r.amount > 0`) falls back to hourly
pay and the row's overtime is 7. -/
theorem C1_counterexample :
    (reportRow 2024 11 [] [] [c1press] c1emp).otAmount = 7
    ∧ (([c1press].filter (fun r => r.employeeId == c1emp.id
          && jsStartsWith r.date (monthKey 2024 11))).map pressOtPerRecordAsWritten).sum = 0
    ∧ (reportRow 2024 11 [] [] [c1press] c1emp).otAmount ≠
        (([c1press].filter (fun r => r.employeeId == c1emp.id
            && jsStartsWith r.date (monthKey 2024 11))).map pressOtPerRecordAsWritten).sum := by
  have hfilter : [c1press].filter (fun r => r.employeeId == c1emp.id
      && jsStartsWith r.date (monthKey 2024 11)) = [c1press] := by decide
  have hcode : (reportRow 2024 11 [] [] [c1press] c1emp).otAmount = 7 := by
    dsimp only [reportRow]
    rw [hfilter]
    norm_num [c1press]
  have hclaim : (([c1press].filter (fun r => r.employeeId == c1emp.id
      && jsStartsWith r.date (monthKey 2024 11))).map pressOtPerRecordAsWritten).sum = 0 := by
    rw [hfilter]
    norm_num [pressOtPerRecordAsWritten, c1press]
  exact ⟨hcode, hclaim, by rw [hcode, hclaim]; norm_num⟩

/-- **C1 (amended).** For every active employee and target month, the payroll
row computes: unpaid-day deduction
`= (countOfAbsent + 0.5 × countOfHalfDay) × (basicSalary/30)` over that
employee's attendance records of the month; overtime pay
`= (sum of hourly OT hours) × 7 + (per press record: the stored pooled
amount if present and positive, otherwise hours × 7)`; and net payable
`= basic + allowance + otherExps + overtime − deduction − advances`. -/
theorem C1_payroll_row (year month : ℕ) (att : List AttendanceRecord)
    (ot : List OvertimeRecord) (press : List OvertimePressRecord)
    (emp : Employee) (hactive : emp.status = "Active") :
    (reportRow year month att ot press emp).deductions =
      (((att.filter (fun r => r.employeeId == emp.id
            && jsStartsWith r.date (monthKey year month))).countP
          (fun r => r.status == .Absent) : ℚ)
        + 0.5 * ((att.filter (fun r => r.employeeId == emp.id
            && jsStartsWith r.date (monthKey year month))).countP
          (fun r => r.status == .HalfDay) : ℚ)) * (emp.basicSalary / 30)
    ∧ (reportRow year month att ot press emp).otAmount =
        ((ot.filter (fun r => r.employeeId == emp.id
            && jsStartsWith r.date (monthKey year month))).map OvertimeRecord.hours).sum * 7
        + ((press.filter (fun r => r.employeeId == emp.id
            && jsStartsWith r.date (monthKey year month))).map pressOtPerRecord).sum
    ∧ (reportRow year month att ot press emp).netPayableSalary =
        emp.basicSalary + emp.allowance + emp.otherExps
          + (reportRow year month att ot press emp).otAmount
          - (reportRow year month att ot press emp).deductions
          - emp.advances.getD 0 := by
  have hot : (reportRow year month att ot press emp).otAmount =
      ((ot.filter (fun r => r.employeeId == emp.id
          && jsStartsWith r.date (monthKey year month))).map OvertimeRecord.hours).sum * 7
      + ((press.filter (fun r => r.employeeId == emp.id
          && jsStartsWith r.date (monthKey year month))).map pressOtPerRecord).sum := by
    dsimp only [reportRow]
    rw [foldl_add_emits_sum OvertimeRecord.hours _ (fun c r => rfl),
      foldl_add_emits_sum pressOtPerRecord _ pressBody_adds_perRecord]
    ring
  have hded : (reportRow year month att ot press emp).deductions =
      (((att.filter (fun r => r.employeeId == emp.id
            && jsStartsWith r.date (monthKey year month))).countP
          (fun r => r.status == .Absent) : ℚ)
        + 0.5 * ((att.filter (fun r => r.employeeId == emp.id
            && jsStartsWith r.date (monthKey year month))).countP
          (fun r => r.status == .HalfDay) : ℚ)) * (emp.basicSalary / 30) := by
    dsimp only [reportRow]
    rw [List.countP_eq_length_filter, List.countP_eq_length_filter]
    ring
  refine ⟨hded, hot, ?_⟩
  dsimp only [reportRow]
  ring

/-- Attendance records used by the C1 witness: two absences and a half-day
for employee `EMP-C1` in December 2024. -/
def c1att : List AttendanceRecord :=
  [{ id := "A1", employeeId := "EMP-C1", date := "2024-12-02", status := .Absent },
   { id := "A2", employeeId := "EMP-C1", date := "2024-12-03", status := .Absent },
   { id := "A3", employeeId := "EMP-C1", date := "2024-12-04", status := .HalfDay }]

/-- Witness for C1 at a concrete active employee and month. -/
theorem C1_payroll_row_witness :
    (reportRow 2024 11 c1att [] [] c1emp).deductions =
      (((c1att.filter (fun r => r.employeeId == c1emp.id
            && jsStartsWith r.date (monthKey 2024 11))).countP
          (fun r => r.status == .Absent) : ℚ)
        + 0.5 * ((c1att.filter (fun r => r.employeeId == c1emp.id
            && jsStartsWith r.date (monthKey 2024 11))).countP
          (fun r => r.status == .HalfDay) : ℚ)) * (c1emp.basicSalary / 30) :=
  (C1_payroll_row 2024 11 c1att [] [] c1emp rfl).1

/-- **C2.** For every non-Labour employee, gratuity accrues at 21 days' wage
per year of service for years 1–5 and at 30 days' wage per year beyond 5
years, with `dailyWage = basicSalary/30`; in particular, with 3 years of
service and `basicSalary = 3000` the accrued gratuity is 6300, and with 6
years of service it is 18000. -/
theorem C2_nonLabour_gratuity_rates :
    (∀ (t : EmployeeType), t ≠ .Labour → ∀ (basicSalary yos : ℚ),
      (1 ≤ yos → yos ≤ 5 →
        gratuityRule t basicSalary yos = basicSalary / 30 * 21 * yos)
      ∧ (5 < yos →
        gratuityRule t basicSalary yos = basicSalary / 30 * 30 * yos))
    ∧ gratuityRule .Office 3000 3 = 6300
    ∧ gratuityRule .Office 3000 6 = 18000 := by
  refine ⟨fun t ht basicSalary yos => ⟨fun h1 h5 => ?_, fun h5 => ?_⟩, ?_, ?_⟩
  · cases t with
    | Labour => exact absurd rfl ht
    | Office => simp [gratuityRule, h1, h5]
  · cases t with
    | Labour => exact absurd rfl ht
    | Office =>
        have h1 : (1 : ℚ) ≤ yos := by linarith
        have h5' : ¬ yos ≤ 5 := by linarith
        simp [gratuityRule, h1, h5']
  · rw [gratuityRule, if_neg (by decide : ¬ (EmployeeType.Office = .Labour))]
    norm_num
  · rw [gratuityRule, if_neg (by decide : ¬ (EmployeeType.Office = .Labour))]
    norm_num

/-- Witness for C2 at concrete inputs. -/
theorem C2_nonLabour_gratuity_rates_witness :
    gratuityRule .Office 3000 3 = 3000 / 30 * 21 * 3
    ∧ gratuityRule .Office 3000 6 = 3000 / 30 * 30 * 6 :=
  ⟨(C2_nonLabour_gratuity_rates.1 .Office (by decide) 3000 3).1 (by norm_num) (by norm_num),
   (C2_nonLabour_gratuity_rates.1 .Office (by decide) 3000 6).2 (by norm_num)⟩

/-- A Labour employee who joined 2024-06-30, viewed in the payroll month of
December 2024: service is about half a year. -/
def c3emp : Employee :=
  { id := "EMP-C3", status := "Active", employeeType := .Labour, basicSalary := 1500,
    allowance := 0, otherExps := 0, advances := none, joiningDate := ⟨2024, 6, 30⟩ }

/-- **C3, counterexample.** The claim says gratuity accrual is zero below one
year of service for employees *of either type*; but the Labour branch of the
calculator has no one-year guard: with about half a year of service the
accrued gratuity is `184/365.25 × 600 ≠ 0`. -/
theorem C3_counterexample :
    yearsOfService (CivilDate.epochDay ⟨2024, 6, 30⟩) (monthEndDay 2024 11) < 1
    ∧ (reportRow 2024 11 [] [] [] c3emp).gratuityAmount ≠ 0 := by
  constructor
  · norm_num [yearsOfService, CivilDate.epochDay, monthEndDay, daysFromCivil,
      daysInGregMonth, isLeapYear]
  · show gratuityRule c3emp.employeeType c3emp.basicSalary _ ≠ _
    rw [gratuityRule]
    norm_num [c3emp, yearsOfService, CivilDate.epochDay, monthEndDay, daysFromCivil,
      daysInGregMonth, isLeapYear]

/-- **C3 (amended).** For every **non-Labour** employee whose years of
service at the end of the target month are less than 1, the payroll
calculator's gratuity accrued is zero (Labour employees accrue
`yearsOfService × 600` even below one year). -/
theorem C3_no_accrual_before_one_year (year month : ℕ)
    (att : List AttendanceRecord) (ot : List OvertimeRecord)
    (press : List OvertimePressRecord) (emp : Employee)
    (ht : emp.employeeType ≠ .Labour)
    (h1 : yearsOfService emp.joiningDate.epochDay (monthEndDay year month) < 1) :
    (reportRow year month att ot press emp).gratuityAmount = 0 := by
  show gratuityRule emp.employeeType emp.basicSalary
      (yearsOfService emp.joiningDate.epochDay (monthEndDay year month)) = 0
  have hn : ¬ (1 : ℚ) ≤ yearsOfService emp.joiningDate.epochDay (monthEndDay year month) := by
    linarith
  cases h : emp.employeeType with
  | Labour => exact absurd h ht
  | Office => simp [gratuityRule, hn]

/-- Witness for C3 (amended): an Office employee with half a year of
service accrues no gratuity. -/
theorem C3_no_accrual_before_one_year_witness :
    (reportRow 2024 11 [] [] []
      { id := "EMP-C3W", status := "Active", employeeType := .Office, basicSalary := 3000,
        allowance := 0, otherExps := 0, advances := none,
        joiningDate := ⟨2024, 6, 30⟩ }).gratuityAmount = 0 :=
  C3_no_accrual_before_one_year 2024 11 [] [] [] _ (by decide)
    (by norm_num [yearsOfService, CivilDate.epochDay, monthEndDay, daysFromCivil,
      daysInGregMonth, isLeapYear])

/-- A Labour employee with `basicSalary = 1500` who joined 2022-12-31,
exactly two calendar years before the end of the payroll month of
December 2024. -/
def c4emp : Employee :=
  { id := "EMP-C4", status := "Active", employeeType := .Labour, basicSalary := 1500,
    allowance := 0, otherExps := 0, advances := none, joiningDate := ⟨2022, 12, 31⟩ }

/-- **C4, counterexample.** December 2024 ends on 2024-12-31, exactly two
calendar years after the joining date 2022-12-31 — a span of 731 days.  The
calculator computes `yearsOfService = 731/365.25 ≠ 2`, so the gratuity is
not the claimed `2 × 600 = 1200` (and neither is the leave accrual). -/
theorem C4_counterexample :
    monthEndDay 2024 11 = CivilDate.epochDay ⟨2024, 12, 31⟩
    ∧ monthEndDay 2024 11 - CivilDate.epochDay ⟨2022, 12, 31⟩ = 731
    ∧ (reportRow 2024 11 [] [] [] c4emp).gratuityAmount ≠ 1200
    ∧ (reportRow 2024 11 [] [] [] c4emp).leaveSalaryAccrued ≠ 1200 := by
  refine ⟨by decide, by decide, ?_, ?_⟩
  · show gratuityRule c4emp.employeeType c4emp.basicSalary _ ≠ _
    rw [gratuityRule]
    norm_num [c4emp, yearsOfService, CivilDate.epochDay, monthEndDay, daysFromCivil,
      daysInGregMonth, isLeapYear]
  · show yearsOfService c4emp.joiningDate.epochDay (monthEndDay 2024 11) * 600 ≠ 1200
    norm_num [c4emp, yearsOfService, CivilDate.epochDay, monthEndDay, daysFromCivil,
      daysInGregMonth, isLeapYear]

/-- **C4 (amended).** For a Labour employee with `basicSalary = 1500` whose
joining date is exactly 2 calendar years before the end of the target month,
gratuity accrued and leave accrued both equal
`(dayDifference / 365.25) × 600` — approximately, but not exactly, 1200.
For joining 2022-12-31 and the month of December 2024 the day difference is
731 and both accruals are `584800/487 ≈ 1200.82`. -/
theorem C4_two_year_labour_accruals :
    (reportRow 2024 11 [] [] [] c4emp).gratuityAmount
        = yearsOfService (CivilDate.epochDay ⟨2022, 12, 31⟩) (monthEndDay 2024 11) * 600
    ∧ (reportRow 2024 11 [] [] [] c4emp).leaveSalaryAccrued
        = yearsOfService (CivilDate.epochDay ⟨2022, 12, 31⟩) (monthEndDay 2024 11) * 600
    ∧ (reportRow 2024 11 [] [] [] c4emp).gratuityAmount = 584800 / 487
    ∧ (reportRow 2024 11 [] [] [] c4emp).leaveSalaryAccrued = 584800 / 487 := by
  refine ⟨?_, rfl, ?_, ?_⟩
  · show gratuityRule c4emp.employeeType c4emp.basicSalary
        (yearsOfService c4emp.joiningDate.epochDay (monthEndDay 2024 11)) = _
    rw [gratuityRule, if_pos (by decide : c4emp.employeeType = .Labour)]
    rfl
  · show gratuityRule c4emp.employeeType c4emp.basicSalary _ = _
    rw [gratuityRule]
    norm_num [c4emp, yearsOfService, CivilDate.epochDay, monthEndDay, daysFromCivil,
      daysInGregMonth, isLeapYear]
  · show yearsOfService c4emp.joiningDate.epochDay (monthEndDay 2024 11) * 600 = 584800 / 487
    norm_num [c4emp, yearsOfService, CivilDate.epochDay, monthEndDay, daysFromCivil,
      daysInGregMonth, isLeapYear]

/-- **C5.** The reducer is a total function of `(state, action)`; an action
whose type tag is none of the handled cases is a no-op, and a
`RESTORE_STATE` action whose payload is not an object or lacks the sentinel
`customers` key returns the input state unchanged. -/
theorem C5_reducer_unknown_and_invalid_restore_noop :
    (∀ (s : AppState) (tag : String), dataReducer s (.unknown tag) = s)
    ∧ (∀ (s : AppState) (p : RestorePayload), ¬ validSnapshotShape p →
        dataReducer s (.restoreState p) = s) := by
  refine ⟨fun s tag => rfl, fun s p h => ?_⟩
  cases p with
  | notAnObject => rfl
  | obj r =>
      show (if r.customers.keyPresent then processState (buildRestoredState r) else s) = s
      exact if_neg h

/-- Witness for C5: an unrecognized tag and a non-object payload leave the
initial state untouched. -/
theorem C5_reducer_unknown_and_invalid_restore_noop_witness :
    dataReducer initialState (.unknown "NOT_A_CASE") = initialState
    ∧ dataReducer initialState (.restoreState .notAnObject) = initialState :=
  ⟨C5_reducer_unknown_and_invalid_restore_noop.1 initialState "NOT_A_CASE",
   C5_reducer_unknown_and_invalid_restore_noop.2 initialState .notAnObject (by decide)⟩

/-- Adding a journal entry appends it to `journalEntries` regardless of the
counter branches. -/
theorem addJournalEntry_appends (s : AppState) (e : JournalEntry) :
    (dataReducer s (.addEntity .journalEntries e)).journalEntries =
      s.journalEntries ++ [e] := by
  dsimp only [dataReducer, applyAdd, getColl, setColl]
  split_ifs <;> rfl

/-- If some existing journal entry already carries the voucher id, adding
another entry of that voucher changes no voucher-series counter. -/
theorem addJournalEntry_counters_of_stale (s : AppState) (e : JournalEntry)
    (h : s.journalEntries.any (fun je => je.voucherId == e.voucherId) = true) :
    (dataReducer s (.addEntity .journalEntries e)).nextReceiptVoucherNumber
        = s.nextReceiptVoucherNumber
    ∧ (dataReducer s (.addEntity .journalEntries e)).nextPaymentVoucherNumber
        = s.nextPaymentVoucherNumber
    ∧ (dataReducer s (.addEntity .journalEntries e)).nextExpenseVoucherNumber
        = s.nextExpenseVoucherNumber
    ∧ (dataReducer s (.addEntity .journalEntries e)).nextJournalVoucherNumber
        = s.nextJournalVoucherNumber := by
  dsimp only [dataReducer, applyAdd, getColl, setColl]
  rw [h]
  simp

/-- An entry whose voucher id is already present, stated with the claim's
existential. -/
theorem voucherId_present_any {s : AppState} {e : JournalEntry}
    (h : ∃ je ∈ s.journalEntries, je.voucherId = e.voucherId) :
    s.journalEntries.any (fun je => je.voucherId == e.voucherId) = true := by
  obtain ⟨je, hmem, hv⟩ := h
  exact List.any_eq_true.mpr ⟨je, hmem, beq_iff_eq.mpr hv⟩

/-- **C8.** Adding a journal entry increments the matching voucher-series
counter (selected by entry type plus `RV-`/`PV-`/`EV-`/`JV-` prefix) by
exactly 1 only if no existing journal entry already has that voucher id;
if the voucher id is already present, no voucher counter moves, and hence
replaying the same `ADD_ENTITY` journal-entry action a second time does not
increment any voucher-series counter again. -/
theorem C8_journal_voucher_counter_idempotent :
    (∀ (s : AppState) (e : JournalEntry),
      (∃ je ∈ s.journalEntries, je.voucherId = e.voucherId) →
        (dataReducer s (.addEntity .journalEntries e)).nextReceiptVoucherNumber
            = s.nextReceiptVoucherNumber
        ∧ (dataReducer s (.addEntity .journalEntries e)).nextPaymentVoucherNumber
            = s.nextPaymentVoucherNumber
        ∧ (dataReducer s (.addEntity .journalEntries e)).nextExpenseVoucherNumber
            = s.nextExpenseVoucherNumber
        ∧ (dataReducer s (.addEntity .journalEntries e)).nextJournalVoucherNumber
            = s.nextJournalVoucherNumber)
    ∧ (∀ (s : AppState) (e : JournalEntry),
        (¬ ∃ je ∈ s.journalEntries, je.voucherId = e.voucherId) →
        ((e.entryType = .Receipt → jsStartsWith e.voucherId "RV-" = true →
          (dataReducer s (.addEntity .journalEntries e)).nextReceiptVoucherNumber
              = s.nextReceiptVoucherNumber + 1)
        ∧ (e.entryType = .Payment → jsStartsWith e.voucherId "PV-" = true →
          (dataReducer s (.addEntity .journalEntries e)).nextPaymentVoucherNumber
              = s.nextPaymentVoucherNumber + 1)
        ∧ (e.entryType = .Expense → jsStartsWith e.voucherId "EV-" = true →
          (dataReducer s (.addEntity .journalEntries e)).nextExpenseVoucherNumber
              = s.nextExpenseVoucherNumber + 1)
        ∧ (e.entryType = .Journal → jsStartsWith e.voucherId "JV-" = true →
          (dataReducer s (.addEntity .journalEntries e)).nextJournalVoucherNumber
              = s.nextJournalVoucherNumber + 1)))
    ∧ (∀ (s : AppState) (e : JournalEntry),
        (dataReducer (dataReducer s (.addEntity .journalEntries e))
            (.addEntity .journalEntries e)).nextReceiptVoucherNumber
          = (dataReducer s (.addEntity .journalEntries e)).nextReceiptVoucherNumber
        ∧ (dataReducer (dataReducer s (.addEntity .journalEntries e))
            (.addEntity .journalEntries e)).nextPaymentVoucherNumber
          = (dataReducer s (.addEntity .journalEntries e)).nextPaymentVoucherNumber
        ∧ (dataReducer (dataReducer s (.addEntity .journalEntries e))
            (.addEntity .journalEntries e)).nextExpenseVoucherNumber
          = (dataReducer s (.addEntity .journalEntries e)).nextExpenseVoucherNumber
        ∧ (dataReducer (dataReducer s (.addEntity .journalEntries e))
            (.addEntity .journalEntries e)).nextJournalVoucherNumber
          = (dataReducer s (.addEntity .journalEntries e)).nextJournalVoucherNumber) := by
  refine ⟨fun s e h => addJournalEntry_counters_of_stale s e (voucherId_present_any h),
    fun s e h => ?_, fun s e => ?_⟩
  · have hany : s.journalEntries.any (fun je => je.voucherId == e.voucherId) = false := by
      cases hc : s.journalEntries.any (fun je => je.voucherId == e.voucherId) with
      | false => rfl
      | true =>
          exact absurd (List.any_eq_true.mp hc) (by
            simpa [beq_iff_eq] using h)
    refine ⟨fun ht hp => ?_, fun ht hp => ?_, fun ht hp => ?_, fun ht hp => ?_⟩ <;>
      (dsimp only [dataReducer, applyAdd, getColl, setColl]; rw [hany]; simp [ht, hp])
  · have hstale : (dataReducer s (.addEntity .journalEntries e)).journalEntries.any
        (fun je => je.voucherId == e.voucherId) = true := by
      rw [addJournalEntry_appends]
      simp
    exact addJournalEntry_counters_of_stale _ e hstale


/-- A state already holding a receipt journal entry for voucher `RV-1`. -/
def c8state : AppState :=
  { initialState with
    journalEntries := [{ id := "J1", voucherId := "RV-1", entryType := .Receipt }],
    nextReceiptVoucherNumber := 2 }

/-- A second journal entry of the same voucher `RV-1`. -/
def c8entry : JournalEntry := { id := "J2", voucherId := "RV-1", entryType := .Receipt }

/-- Witness for C8: adding a second entry of an already-present voucher
leaves the receipt counter alone, and the double-replay leaves it where the
first add put it. -/
theorem C8_journal_voucher_counter_idempotent_witness :
    (dataReducer c8state (.addEntity .journalEntries c8entry)).nextReceiptVoucherNumber
      = c8state.nextReceiptVoucherNumber
    ∧ (dataReducer (dataReducer initialState (.addEntity .journalEntries c8entry))
        (.addEntity .journalEntries c8entry)).nextReceiptVoucherNumber
      = (dataReducer initialState (.addEntity .journalEntries c8entry)).nextReceiptVoucherNumber :=
  ⟨(C8_journal_voucher_counter_idempotent.1 c8state c8entry
      ⟨{ id := "J1", voucherId := "RV-1", entryType := .Receipt }, by decide, rfl⟩).1,
   (C8_journal_voucher_counter_idempotent.2.2 initialState c8entry).1⟩

/-- A state holding a guarantee cheque and an advanced cheque counter. -/
def c9state : AppState :=
  { initialState with guaranteeCheques := [{ id := "GC-1" }], nextGuaranteeChequeSNo := 5 }

/-- **C9, counterexample.** `HARD_RESET_TRANSACTIONS` does *not* clear the
guarantee cheques, and does not reset `nextGuaranteeChequeSNo` to 1, so the
claim's "all transactional collections are empty and all document-numbering
counters are reset to 1" fails on a state holding a guarantee cheque. -/
theorem C9_counterexample :
    (dataReducer c9state .hardResetTransactions).guaranteeCheques ≠ []
    ∧ (dataReducer c9state .hardResetTransactions).nextGuaranteeChequeSNo ≠ 1 := by
  constructor <;> decide

/-- **C9 (amended).** For every state, `HARD_RESET_TRANSACTIONS` empties the
transactional collections it enumerates (sales invoices, the three purchase
collections, journal entries, productions, original openings, ongoing
orders, logistics entries, attendance records, salary payments, HR
tasks/enquiries, favorite combinations, test entries, depreciation entries),
resets their document-numbering counters to 1 and clears the planner fields,
while guarantee cheques, their serial counter `nextGuaranteeChequeSNo`,
customs documents and all master data are left unchanged. -/
theorem C9_hard_reset_effects (s : AppState) :
    (dataReducer s .hardResetTransactions).salesInvoices = []
    ∧ (dataReducer s .hardResetTransactions).originalPurchases = []
    ∧ (dataReducer s .hardResetTransactions).finishedGoodsPurchases = []
    ∧ (dataReducer s .hardResetTransactions).packingMaterialPurchases = []
    ∧ (dataReducer s .hardResetTransactions).journalEntries = []
    ∧ (dataReducer s .hardResetTransactions).productions = []
    ∧ (dataReducer s .hardResetTransactions).originalOpenings = []
    ∧ (dataReducer s .hardResetTransactions).ongoingOrders = []
    ∧ (dataReducer s .hardResetTransactions).logisticsEntries = []
    ∧ (dataReducer s .hardResetTransactions).attendanceRecords = []
    ∧ (dataReducer s .hardResetTransactions).salaryPayments = []
    ∧ (dataReducer s .hardResetTransactions).hrTasks = []
    ∧ (dataReducer s .hardResetTransactions).hrEnquiries = []
    ∧ (dataReducer s .hardResetTransactions).favoriteCombinations = []
    ∧ (dataReducer s .hardResetTransactions).testEntries = []
    ∧ (dataReducer s .hardResetTransactions).depreciationEntries = []
    ∧ (dataReducer s .hardResetTransactions).nextInvoiceNumber = 1
    ∧ (dataReducer s .hardResetTransactions).nextOngoingOrderNumber = 1
    ∧ (dataReducer s .hardResetTransactions).nextFinishedGoodsPurchaseNumber = 1
    ∧ (dataReducer s .hardResetTransactions).nextPackingMaterialPurchaseNumber = 1
    ∧ (dataReducer s .hardResetTransactions).nextLogisticsSNo = 1
    ∧ (dataReducer s .hardResetTransactions).nextReceiptVoucherNumber = 1
    ∧ (dataReducer s .hardResetTransactions).nextPaymentVoucherNumber = 1
    ∧ (dataReducer s .hardResetTransactions).nextExpenseVoucherNumber = 1
    ∧ (dataReducer s .hardResetTransactions).nextJournalVoucherNumber = 1
    ∧ (dataReducer s .hardResetTransactions).nextTestEntryNumber = 1
    ∧ (dataReducer s .hardResetTransactions).nextHRTaskId = 1
    ∧ (dataReducer s .hardResetTransactions).nextHREnquiryId = 1
    ∧ (dataReducer s .hardResetTransactions).plannerData = []
    ∧ (dataReducer s .hardResetTransactions).plannerLastWeeklyReset = ""
    ∧ (dataReducer s .hardResetTransactions).plannerLastMonthlyReset = ""
    ∧ (dataReducer s .hardResetTransactions).customers = s.customers
    ∧ (dataReducer s .hardResetTransactions).suppliers = s.suppliers
    ∧ (dataReducer s .hardResetTransactions).vendors = s.vendors
    ∧ (dataReducer s .hardResetTransactions).subSuppliers = s.subSuppliers
    ∧ (dataReducer s .hardResetTransactions).employees = s.employees
    ∧ (dataReducer s .hardResetTransactions).banks = s.banks
    ∧ (dataReducer s .hardResetTransactions).cashAccounts = s.cashAccounts
    ∧ (dataReducer s .hardResetTransactions).originalTypes = s.originalTypes
    ∧ (dataReducer s .hardResetTransactions).originalProducts = s.originalProducts
    ∧ (dataReducer s .hardResetTransactions).divisions = s.divisions
    ∧ (dataReducer s .hardResetTransactions).subDivisions = s.subDivisions
    ∧ (dataReducer s .hardResetTransactions).warehouses = s.warehouses
    ∧ (dataReducer s .hardResetTransactions).sections = s.sections
    ∧ (dataReducer s .hardResetTransactions).categories = s.categories
    ∧ (dataReducer s .hardResetTransactions).items = s.items
    ∧ (dataReducer s .hardResetTransactions).logos = s.logos
    ∧ (dataReducer s .hardResetTransactions).assetTypes = s.assetTypes
    ∧ (dataReducer s .hardResetTransactions).commissionAgents = s.commissionAgents
    ∧ (dataReducer s .hardResetTransactions).freightForwarders = s.freightForwarders
    ∧ (dataReducer s .hardResetTransactions).clearingAgents = s.clearingAgents
    ∧ (dataReducer s .hardResetTransactions).loanAccounts = s.loanAccounts
    ∧ (dataReducer s .hardResetTransactions).capitalAccounts = s.capitalAccounts
    ∧ (dataReducer s .hardResetTransactions).investmentAccounts = s.investmentAccounts
    ∧ (dataReducer s .hardResetTransactions).expenseAccounts = s.expenseAccounts
    ∧ (dataReducer s .hardResetTransactions).inventoryAccounts = s.inventoryAccounts
    ∧ (dataReducer s .hardResetTransactions).packingMaterialInventoryAccounts = s.packingMaterialInventoryAccounts
    ∧ (dataReducer s .hardResetTransactions).fixedAssetAccounts = s.fixedAssetAccounts
    ∧ (dataReducer s .hardResetTransactions).accumulatedDepreciationAccounts = s.accumulatedDepreciationAccounts
    ∧ (dataReducer s .hardResetTransactions).receivableAccounts = s.receivableAccounts
    ∧ (dataReducer s .hardResetTransactions).revenueAccounts = s.revenueAccounts
    ∧ (dataReducer s .hardResetTransactions).payableAccounts = s.payableAccounts
    ∧ (dataReducer s .hardResetTransactions).vehicles = s.vehicles
    ∧ (dataReducer s .hardResetTransactions).fixedAssets = s.fixedAssets
    ∧ (dataReducer s .hardResetTransactions).packingMaterialItems = s.packingMaterialItems
    ∧ (dataReducer s .hardResetTransactions).guaranteeCheques = s.guaranteeCheques
    ∧ (dataReducer s .hardResetTransactions).customsDocuments = s.customsDocuments
    ∧ (dataReducer s .hardResetTransactions).nextGuaranteeChequeSNo = s.nextGuaranteeChequeSNo
    ∧ (dataReducer s .hardResetTransactions).plannerCustomerIds = s.plannerCustomerIds
    ∧ (dataReducer s .hardResetTransactions).plannerSupplierIds = s.plannerSupplierIds
    ∧ (dataReducer s .hardResetTransactions).plannerExpenseAccountIds = s.plannerExpenseAccountIds :=
  ⟨rfl, rfl, rfl, rfl, rfl, rfl, rfl, rfl, rfl, rfl, rfl, rfl, rfl, rfl, rfl, rfl, rfl, rfl, rfl, rfl, rfl, rfl, rfl, rfl, rfl, rfl, rfl, rfl, rfl, rfl, rfl, rfl, rfl, rfl, rfl, rfl, rfl, rfl, rfl, rfl, rfl, rfl, rfl, rfl, rfl, rfl, rfl, rfl, rfl, rfl, rfl, rfl, rfl, rfl, rfl, rfl, rfl, rfl, rfl, rfl, rfl, rfl, rfl, rfl, rfl, rfl, rfl, rfl, rfl, rfl, rfl⟩

/-- **C10.** `ADD_ENTITY` appends its payload to the target collection
unconditionally — there is no duplicate-id check, so adding an
already-present record keeps both copies — and for counter-linked entities
other than journal entries (e.g. `salesInvoices`) the associated counter is
incremented again on a replay. -/
theorem C10_addEntity_appends_unconditionally :
    (∀ (s : AppState) (e : EntityName) (d : EntityData e),
      getColl (dataReducer s (.addEntity e d)) e = getColl s e ++ [d])
    ∧ (∀ (s : AppState) (e : EntityName) (d : EntityData e),
      getColl (dataReducer (dataReducer s (.addEntity e d)) (.addEntity e d)) e
        = getColl s e ++ [d] ++ [d])
    ∧ (∀ (s : AppState) (d : Rec),
      (dataReducer (dataReducer s (.addEntity .salesInvoices d))
        (.addEntity .salesInvoices d)).nextInvoiceNumber = s.nextInvoiceNumber + 2) := by
  have happend : ∀ (s : AppState) (e : EntityName) (d : EntityData e),
      getColl (dataReducer s (.addEntity e d)) e = getColl s e ++ [d] := by
    intro s e d
    cases e <;>
      first
        | rfl
        | (dsimp only [dataReducer, applyAdd, getColl, setColl]; split_ifs <;> rfl)
  refine ⟨happend, fun s e d => by rw [happend, happend], fun s d => ?_⟩
  rfl

/-- A snapshot payload whose `divisions` array carries the same id twice
(and whose `customers` key is present, so the restore guard passes). -/
def c6raw : RawState :=
  { customers := .val [], divisions := .val [{ id := "D1" }, { id := "D1" }] }

/-- The C6 remote-change payload. -/
def c6payload : RestorePayload := .obj c6raw

/-- A synchronization state with the local-change flag clear. -/
def c6sync : SyncState := { isLocalChange := false, localState := initialState }

/-- **C6, counterexample.** A flag-clear remote notification does *not*
replace local state with the raw remote payload: the handler first
de-duplicates `divisions` by id, so for a payload with a duplicated division
the resulting local state differs from `RESTORE_STATE` applied to the
payload itself. -/
theorem C6_counterexample :
    (handleSnapshot c6sync (some c6payload)).localState ≠
      dataReducer c6sync.localState (.restoreState c6payload) :=
  fun hcontra => absurd (congrArg AppState.divisions hcontra) (by decide)

/-- **C6 (amended).** A local dispatch sets the `isLocalChange` flag (while
reducing normally); a remote notification arriving with the flag set is
ignored once, only clearing the flag; and a remote notification arriving
with the flag clear replaces local state via a `RESTORE_STATE` dispatch
carrying the remote payload *after de-duplicating its divisions by id*
(which is the payload itself whenever its divisions carry no duplicate). -/
theorem C6_sync_flag_and_restore :
    (∀ (st : SyncState) (a : Action),
      (wrappedDispatch st a).isLocalChange = true
      ∧ (wrappedDispatch st a).localState = dataReducer st.localState a)
    ∧ (∀ (st : SyncState) (doc : Option RestorePayload), st.isLocalChange = true →
        handleSnapshot st doc = { st with isLocalChange := false })
    ∧ (∀ (st : SyncState) (p : RestorePayload), st.isLocalChange = false →
        (handleSnapshot st (some p)).isLocalChange = false
        ∧ (handleSnapshot st (some p)).localState =
            dataReducer st.localState (.restoreState (dedupDivisions p))) := by
  refine ⟨fun st a => ⟨rfl, rfl⟩, fun st doc h => ?_, fun st p h => ?_⟩
  · simp [handleSnapshot, h]
  · simp [handleSnapshot, h]

/-- Witness for C6: a flag-set state ignores one notification and clears the
flag; a flag-clear state restores from the payload. -/
theorem C6_sync_flag_and_restore_witness :
    handleSnapshot { isLocalChange := true, localState := initialState } (some c6payload)
      = { isLocalChange := false, localState := initialState }
    ∧ (handleSnapshot c6sync (some c6payload)).localState
      = dataReducer initialState (.restoreState (dedupDivisions c6payload)) :=
  ⟨C6_sync_flag_and_restore.2.1 { isLocalChange := true, localState := initialState }
      (some c6payload) rfl,
   (C6_sync_flag_and_restore.2.2 c6sync c6payload rfl).2⟩

/-- A missing-or-null array-valued field falls back to the default under
`||`. -/
theorem RawField.orColl_eq_default {α : Type} (f : RawField (List α)) (d : List α)
    (h : f.isMissingOrNull) : f.orColl d = d := by
  cases f with
  | missing => rfl
  | null => rfl
  | val a => exact h.elim

/-- A missing-or-null string field falls back to the default under `||`. -/
theorem RawField.orStr_eq_default (f : RawField String) (d : String)
    (h : f.isMissingOrNull) : f.orStr d = d := by
  cases f with
  | missing => rfl
  | null => rfl
  | val a => exact h.elim

/-- A missing-or-null counter field falls back to the default under `??`. -/
theorem RawField.nn_eq_default (f : RawField ℕ) (d : ℕ)
    (h : f.isMissingOrNull) : f.nn d = d := by
  cases f with
  | missing => rfl
  | null => rfl
  | val a => exact h.elim

/-- The serializer agrees with the claim-side description on every value:
proved by simultaneous induction over the three mutual value types. -/
theorem convertUndefinedToNull_eq_spec (v : JsValue) :
    convertUndefinedToNull v = replaceUndefFieldsSpec v := by
  refine @JsValue.rec
    (fun v => convertUndefinedToNull v = replaceUndefFieldsSpec v)
    (fun a => convertUndefinedToNullArr a = replaceUndefFieldsSpecArr a)
    (fun f => convertUndefinedToNullObj f = replaceUndefFieldsSpecObj f)
    ?hu ?hn ?hq ?hs ?hb ?harr ?hobj ?hanil ?hacons ?honil ?hocons v
  case hu =>
    show _ = _
    rw [convertUndefinedToNull.eq_def, replaceUndefFieldsSpec.eq_def]
  case hn =>
    show _ = _
    rw [convertUndefinedToNull.eq_def, replaceUndefFieldsSpec.eq_def]
  case hq =>
    intro q
    show _ = _
    rw [convertUndefinedToNull.eq_def, replaceUndefFieldsSpec.eq_def]
  case hs =>
    intro s
    show _ = _
    rw [convertUndefinedToNull.eq_def, replaceUndefFieldsSpec.eq_def]
  case hb =>
    intro b
    show _ = _
    rw [convertUndefinedToNull.eq_def, replaceUndefFieldsSpec.eq_def]
  case harr =>
    intro a ih
    show _ = _
    rw [convertUndefinedToNull.eq_def, replaceUndefFieldsSpec.eq_def]
    exact congrArg JsValue.arr ih
  case hobj =>
    intro f ih
    show _ = _
    rw [convertUndefinedToNull.eq_def, replaceUndefFieldsSpec.eq_def]
    exact congrArg JsValue.obj ih
  case hanil =>
    show _ = _
    rw [convertUndefinedToNullArr.eq_def, replaceUndefFieldsSpecArr.eq_def]
  case hacons =>
    intro h t ihh iht
    show _ = _
    rw [convertUndefinedToNullArr.eq_def, replaceUndefFieldsSpecArr.eq_def]
    exact congrArg₂ JsArr.cons ihh iht
  case honil =>
    show _ = _
    rw [convertUndefinedToNullObj.eq_def, replaceUndefFieldsSpecObj.eq_def]
  case hocons =>
    intro key value tail ihv iht
    show _ = _
    rw [convertUndefinedToNullObj.eq_def, replaceUndefFieldsSpecObj.eq_def]
    refine congrArg₂ (JsObj.cons key) ?_ iht
    cases value <;> first | rfl | exact ihv


/-- **C7.** Round-trip: the serializer replaces every `undefined` field
value with `null` (recursively, leaving all other values unchanged), and
`RESTORE_STATE` applied to a valid-shaped payload never drops a top-level
collection — every top-level key that is missing or null in the payload is
filled from the default initial state. -/
theorem C7_serialize_restore_roundtrip :
    (∀ (v : JsValue), convertUndefinedToNull v = replaceUndefFieldsSpec v)
    ∧ (∀ (s : AppState) (r : RawState), r.customers.keyPresent →
        (r.customers.isMissingOrNull →
          (dataReducer s (.restoreState (.obj r))).customers = initialState.customers)
        ∧ (r.suppliers.isMissingOrNull →
          (dataReducer s (.restoreState (.obj r))).suppliers = initialState.suppliers)
        ∧ (r.vendors.isMissingOrNull →
          (dataReducer s (.restoreState (.obj r))).vendors = initialState.vendors)
        ∧ (r.subSuppliers.isMissingOrNull →
          (dataReducer s (.restoreState (.obj r))).subSuppliers = initialState.subSuppliers)
        ∧ (r.employees.isMissingOrNull →
          (dataReducer s (.restoreState (.obj r))).employees = initialState.employees)
        ∧ (r.banks.isMissingOrNull →
          (dataReducer s (.restoreState (.obj r))).banks = initialState.banks)
        ∧ (r.cashAccounts.isMissingOrNull →
          (dataReducer s (.restoreState (.obj r))).cashAccounts = initialState.cashAccounts)
        ∧ (r.originalTypes.isMissingOrNull →
          (dataReducer s (.restoreState (.obj r))).originalTypes = initialState.originalTypes)
        ∧ (r.originalProducts.isMissingOrNull →
          (dataReducer s (.restoreState (.obj r))).originalProducts = initialState.originalProducts)
        ∧ (r.divisions.isMissingOrNull →
          (dataReducer s (.restoreState (.obj r))).divisions = initialState.divisions)
        ∧ (r.subDivisions.isMissingOrNull →
          (dataReducer s (.restoreState (.obj r))).subDivisions = initialState.subDivisions)
        ∧ (r.warehouses.isMissingOrNull →
          (dataReducer s (.restoreState (.obj r))).warehouses = initialState.warehouses)
        ∧ (r.sections.isMissingOrNull →
          (dataReducer s (.restoreState (.obj r))).sections = initialState.sections)
        ∧ (r.categories.isMissingOrNull →
          (dataReducer s (.restoreState (.obj r))).categories = initialState.categories)
        ∧ (r.items.isMissingOrNull →
          (dataReducer s (.restoreState (.obj r))).items = initialState.items)
        ∧ (r.logos.isMissingOrNull →
          (dataReducer s (.restoreState (.obj r))).logos = initialState.logos)
        ∧ (r.assetTypes.isMissingOrNull →
          (dataReducer s (.restoreState (.obj r))).assetTypes = initialState.assetTypes)
        ∧ (r.commissionAgents.isMissingOrNull →
          (dataReducer s (.restoreState (.obj r))).commissionAgents = initialState.commissionAgents)
        ∧ (r.freightForwarders.isMissingOrNull →
          (dataReducer s (.restoreState (.obj r))).freightForwarders = initialState.freightForwarders)
        ∧ (r.clearingAgents.isMissingOrNull →
          (dataReducer s (.restoreState (.obj r))).clearingAgents = initialState.clearingAgents)
        ∧ (r.loanAccounts.isMissingOrNull →
          (dataReducer s (.restoreState (.obj r))).loanAccounts = initialState.loanAccounts)
        ∧ (r.capitalAccounts.isMissingOrNull →
          (dataReducer s (.restoreState (.obj r))).capitalAccounts = initialState.capitalAccounts)
        ∧ (r.investmentAccounts.isMissingOrNull →
          (dataReducer s (.restoreState (.obj r))).investmentAccounts = initialState.investmentAccounts)
        ∧ (r.expenseAccounts.isMissingOrNull →
          (dataReducer s (.restoreState (.obj r))).expenseAccounts = initialState.expenseAccounts)
        ∧ (r.inventoryAccounts.isMissingOrNull →
          (dataReducer s (.restoreState (.obj r))).inventoryAccounts = initialState.inventoryAccounts)
        ∧ (r.packingMaterialInventoryAccounts.isMissingOrNull →
          (dataReducer s (.restoreState (.obj r))).packingMaterialInventoryAccounts = initialState.packingMaterialInventoryAccounts)
        ∧ (r.fixedAssetAccounts.isMissingOrNull →
          (dataReducer s (.restoreState (.obj r))).fixedAssetAccounts = initialState.fixedAssetAccounts)
        ∧ (r.accumulatedDepreciationAccounts.isMissingOrNull →
          (dataReducer s (.restoreState (.obj r))).accumulatedDepreciationAccounts = initialState.accumulatedDepreciationAccounts)
        ∧ (r.receivableAccounts.isMissingOrNull →
          (dataReducer s (.restoreState (.obj r))).receivableAccounts = initialState.receivableAccounts)
        ∧ (r.revenueAccounts.isMissingOrNull →
          (dataReducer s (.restoreState (.obj r))).revenueAccounts = initialState.revenueAccounts)
        ∧ (r.payableAccounts.isMissingOrNull →
          (dataReducer s (.restoreState (.obj r))).payableAccounts = initialState.payableAccounts)
        ∧ (r.attendanceRecords.isMissingOrNull →
          (dataReducer s (.restoreState (.obj r))).attendanceRecords = initialState.attendanceRecords)
        ∧ (r.salaryPayments.isMissingOrNull →
          (dataReducer s (.restoreState (.obj r))).salaryPayments = initialState.salaryPayments)
        ∧ (r.hrTasks.isMissingOrNull →
          (dataReducer s (.restoreState (.obj r))).hrTasks = initialState.hrTasks)
        ∧ (r.hrEnquiries.isMissingOrNull →
          (dataReducer s (.restoreState (.obj r))).hrEnquiries = initialState.hrEnquiries)
        ∧ (r.vehicles.isMissingOrNull →
          (dataReducer s (.restoreState (.obj r))).vehicles = initialState.vehicles)
        ∧ (r.fixedAssets.isMissingOrNull →
          (dataReducer s (.restoreState (.obj r))).fixedAssets = initialState.fixedAssets)
        ∧ (r.depreciationEntries.isMissingOrNull →
          (dataReducer s (.restoreState (.obj r))).depreciationEntries = initialState.depreciationEntries)
        ∧ (r.originalOpenings.isMissingOrNull →
          (dataReducer s (.restoreState (.obj r))).originalOpenings = initialState.originalOpenings)
        ∧ (r.originalPurchases.isMissingOrNull →
          (dataReducer s (.restoreState (.obj r))).originalPurchases = initialState.originalPurchases)
        ∧ (r.productions.isMissingOrNull →
          (dataReducer s (.restoreState (.obj r))).productions = initialState.productions)
        ∧ (r.salesInvoices.isMissingOrNull →
          (dataReducer s (.restoreState (.obj r))).salesInvoices = initialState.salesInvoices)
        ∧ (r.ongoingOrders.isMissingOrNull →
          (dataReducer s (.restoreState (.obj r))).ongoingOrders = initialState.ongoingOrders)
        ∧ (r.finishedGoodsPurchases.isMissingOrNull →
          (dataReducer s (.restoreState (.obj r))).finishedGoodsPurchases = initialState.finishedGoodsPurchases)
        ∧ (r.packingMaterialItems.isMissingOrNull →
          (dataReducer s (.restoreState (.obj r))).packingMaterialItems = initialState.packingMaterialItems)
        ∧ (r.packingMaterialPurchases.isMissingOrNull →
          (dataReducer s (.restoreState (.obj r))).packingMaterialPurchases = initialState.packingMaterialPurchases)
        ∧ (r.logisticsEntries.isMissingOrNull →
          (dataReducer s (.restoreState (.obj r))).logisticsEntries = initialState.logisticsEntries)
        ∧ (r.guaranteeCheques.isMissingOrNull →
          (dataReducer s (.restoreState (.obj r))).guaranteeCheques = initialState.guaranteeCheques)
        ∧ (r.customsDocuments.isMissingOrNull →
          (dataReducer s (.restoreState (.obj r))).customsDocuments = initialState.customsDocuments)
        ∧ (r.favoriteCombinations.isMissingOrNull →
          (dataReducer s (.restoreState (.obj r))).favoriteCombinations = initialState.favoriteCombinations)
        ∧ (r.journalEntries.isMissingOrNull →
          (dataReducer s (.restoreState (.obj r))).journalEntries = initialState.journalEntries)
        ∧ (r.testEntries.isMissingOrNull →
          (dataReducer s (.restoreState (.obj r))).testEntries = initialState.testEntries)
        ∧ (r.nextInvoiceNumber.isMissingOrNull →
          (dataReducer s (.restoreState (.obj r))).nextInvoiceNumber = initialState.nextInvoiceNumber)
        ∧ (r.nextOngoingOrderNumber.isMissingOrNull →
          (dataReducer s (.restoreState (.obj r))).nextOngoingOrderNumber = initialState.nextOngoingOrderNumber)
        ∧ (r.nextFinishedGoodsPurchaseNumber.isMissingOrNull →
          (dataReducer s (.restoreState (.obj r))).nextFinishedGoodsPurchaseNumber = initialState.nextFinishedGoodsPurchaseNumber)
        ∧ (r.nextPackingMaterialPurchaseNumber.isMissingOrNull →
          (dataReducer s (.restoreState (.obj r))).nextPackingMaterialPurchaseNumber = initialState.nextPackingMaterialPurchaseNumber)
        ∧ (r.nextLogisticsSNo.isMissingOrNull →
          (dataReducer s (.restoreState (.obj r))).nextLogisticsSNo = initialState.nextLogisticsSNo)
        ∧ (r.nextHRTaskId.isMissingOrNull →
          (dataReducer s (.restoreState (.obj r))).nextHRTaskId = initialState.nextHRTaskId)
        ∧ (r.nextHREnquiryId.isMissingOrNull →
          (dataReducer s (.restoreState (.obj r))).nextHREnquiryId = initialState.nextHREnquiryId)
        ∧ (r.nextGuaranteeChequeSNo.isMissingOrNull →
          (dataReducer s (.restoreState (.obj r))).nextGuaranteeChequeSNo = initialState.nextGuaranteeChequeSNo)
        ∧ (r.nextReceiptVoucherNumber.isMissingOrNull →
          (dataReducer s (.restoreState (.obj r))).nextReceiptVoucherNumber = initialState.nextReceiptVoucherNumber)
        ∧ (r.nextPaymentVoucherNumber.isMissingOrNull →
          (dataReducer s (.restoreState (.obj r))).nextPaymentVoucherNumber = initialState.nextPaymentVoucherNumber)
        ∧ (r.nextExpenseVoucherNumber.isMissingOrNull →
          (dataReducer s (.restoreState (.obj r))).nextExpenseVoucherNumber = initialState.nextExpenseVoucherNumber)
        ∧ (r.nextJournalVoucherNumber.isMissingOrNull →
          (dataReducer s (.restoreState (.obj r))).nextJournalVoucherNumber = initialState.nextJournalVoucherNumber)
        ∧ (r.nextTestEntryNumber.isMissingOrNull →
          (dataReducer s (.restoreState (.obj r))).nextTestEntryNumber = initialState.nextTestEntryNumber)
        ∧ (r.plannerData.isMissingOrNull →
          (dataReducer s (.restoreState (.obj r))).plannerData = initialState.plannerData)
        ∧ (r.plannerLastWeeklyReset.isMissingOrNull →
          (dataReducer s (.restoreState (.obj r))).plannerLastWeeklyReset = initialState.plannerLastWeeklyReset)
        ∧ (r.plannerLastMonthlyReset.isMissingOrNull →
          (dataReducer s (.restoreState (.obj r))).plannerLastMonthlyReset = initialState.plannerLastMonthlyReset)
        ∧ (r.plannerCustomerIds.isMissingOrNull →
          (dataReducer s (.restoreState (.obj r))).plannerCustomerIds = initialState.plannerCustomerIds)
        ∧ (r.plannerSupplierIds.isMissingOrNull →
          (dataReducer s (.restoreState (.obj r))).plannerSupplierIds = initialState.plannerSupplierIds)
        ∧ (r.plannerExpenseAccountIds.isMissingOrNull →
          (dataReducer s (.restoreState (.obj r))).plannerExpenseAccountIds = initialState.plannerExpenseAccountIds)) := by
  refine ⟨convertUndefinedToNull_eq_spec, fun s r hkey => ?_⟩
  have hred : dataReducer s (.restoreState (.obj r)) = processState (buildRestoredState r) := by
    show (if r.customers.keyPresent then processState (buildRestoredState r) else s) = _
    exact if_pos hkey
  rw [hred]
  dsimp only [processState, buildRestoredState, initialState, getInitialState, List.map_nil]
  exact ⟨fun h => RawField.orColl_eq_default _ _ h,
    fun h => RawField.orColl_eq_default _ _ h,
    fun h => RawField.orColl_eq_default _ _ h,
    fun h => RawField.orColl_eq_default _ _ h,
    fun h => RawField.orColl_eq_default _ _ h,
    fun h => RawField.orColl_eq_default _ _ h,
    fun h => RawField.orColl_eq_default _ _ h,
    fun h => RawField.orColl_eq_default _ _ h,
    fun h => RawField.orColl_eq_default _ _ h,
    fun h => RawField.orColl_eq_default _ _ h,
    fun h => RawField.orColl_eq_default _ _ h,
    fun h => RawField.orColl_eq_default _ _ h,
    fun h => RawField.orColl_eq_default _ _ h,
    fun h => RawField.orColl_eq_default _ _ h,
    fun h => by rw [RawField.orColl_eq_default _ _ h, List.map_nil],
    fun h => RawField.orColl_eq_default _ _ h,
    fun h => RawField.orColl_eq_default _ _ h,
    fun h => RawField.orColl_eq_default _ _ h,
    fun h => RawField.orColl_eq_default _ _ h,
    fun h => RawField.orColl_eq_default _ _ h,
    fun h => RawField.orColl_eq_default _ _ h,
    fun h => RawField.orColl_eq_default _ _ h,
    fun h => RawField.orColl_eq_default _ _ h,
    fun h => RawField.orColl_eq_default _ _ h,
    fun h => RawField.orColl_eq_default _ _ h,
    fun h => RawField.orColl_eq_default _ _ h,
    fun h => RawField.orColl_eq_default _ _ h,
    fun h => RawField.orColl_eq_default _ _ h,
    fun h => RawField.orColl_eq_default _ _ h,
    fun h => RawField.orColl_eq_default _ _ h,
    fun h => RawField.orColl_eq_default _ _ h,
    fun h => RawField.orColl_eq_default _ _ h,
    fun h => RawField.orColl_eq_default _ _ h,
    fun h => RawField.orColl_eq_default _ _ h,
    fun h => RawField.orColl_eq_default _ _ h,
    fun h => RawField.orColl_eq_default _ _ h,
    fun h => RawField.orColl_eq_default _ _ h,
    fun h => RawField.orColl_eq_default _ _ h,
    fun h => RawField.orColl_eq_default _ _ h,
    fun h => RawField.orColl_eq_default _ _ h,
    fun h => RawField.orColl_eq_default _ _ h,
    fun h => RawField.orColl_eq_default _ _ h,
    fun h => RawField.orColl_eq_default _ _ h,
    fun h => RawField.orColl_eq_default _ _ h,
    fun h => RawField.orColl_eq_default _ _ h,
    fun h => RawField.orColl_eq_default _ _ h,
    fun h => RawField.orColl_eq_default _ _ h,
    fun h => RawField.orColl_eq_default _ _ h,
    fun h => RawField.orColl_eq_default _ _ h,
    fun h => RawField.orColl_eq_default _ _ h,
    fun h => RawField.orColl_eq_default _ _ h,
    fun h => RawField.orColl_eq_default _ _ h,
    fun h => RawField.nn_eq_default _ _ h,
    fun h => RawField.nn_eq_default _ _ h,
    fun h => RawField.nn_eq_default _ _ h,
    fun h => RawField.nn_eq_default _ _ h,
    fun h => RawField.nn_eq_default _ _ h,
    fun h => RawField.nn_eq_default _ _ h,
    fun h => RawField.nn_eq_default _ _ h,
    fun h => RawField.nn_eq_default _ _ h,
    fun h => RawField.nn_eq_default _ _ h,
    fun h => RawField.nn_eq_default _ _ h,
    fun h => RawField.nn_eq_default _ _ h,
    fun h => RawField.nn_eq_default _ _ h,
    fun h => RawField.nn_eq_default _ _ h,
    fun h => RawField.orColl_eq_default _ _ h,
    fun h => RawField.orStr_eq_default _ _ h,
    fun h => RawField.orStr_eq_default _ _ h,
    fun h => RawField.orColl_eq_default _ _ h,
    fun h => RawField.orColl_eq_default _ _ h,
    fun h => RawField.orColl_eq_default _ _ h⟩

/-- A valid-shaped payload carrying only the sentinel `customers` key. -/
def c7raw : RawState := { customers := .val [] }

/-- Witness for C7: restoring a payload with every other key missing fills
`suppliers` and `nextInvoiceNumber` from the defaults. -/
theorem C7_serialize_restore_roundtrip_witness :
    (dataReducer initialState (.restoreState (.obj c7raw))).suppliers = initialState.suppliers
    ∧ (dataReducer initialState (.restoreState (.obj c7raw))).nextInvoiceNumber
        = initialState.nextInvoiceNumber :=
  ⟨(C7_serialize_restore_roundtrip.2 initialState c7raw (by decide)).2.1 (by decide),
   (C7_serialize_restore_roundtrip.2 initialState c7raw (by decide)).2.2.2.2.2.2.2.2.2.2.2.2.2.2.2.2.2.2.2.2.2.2.2.2.2.2.2.2.2.2.2.2.2.2.2.2.2.2.2.2.2.2.2.2.2.2.2.2.2.2.2.2.1 (by decide)⟩

end UGHR
